import Mathlib

/-!
Verification of the CCMS persistence layer (src/database.py).

The store is an SQLite database accessed through the functions of
src/database.py.  We embed it shallowly: each table becomes a list of row
records held in a `DBState`, together with the per-table `INTEGER PRIMARY KEY`
counters (SQLite rowids, starting at 1) and a logical clock standing for
`datetime('now')` column defaults.  SQL `TEXT` is `String`, `REAL` is `ℚ`
(coordinates are only stored, copied and NULL-tested, never computed with),
nullable columns are `Option`.  Statements that can raise
(`sqlite3.IntegrityError`) are modelled with `Except DBError`; an `.error`
result means the statement raised, the surrounding transaction was not
committed, and the store is unchanged (every fallible function in
src/database.py commits only after all statements succeed).
-/

namespace CCMS

/-- Lexicographic comparison of character lists.  SQLite compares `TEXT`
values byte-wise (memcmp), which on the ASCII dates and timestamps stored by
this application coincides with lexicographic order on characters. -/
def charListLe : List Char → List Char → Bool
  | [], _ => true
  | _ :: _, [] => false
  | a :: as, b :: bs =>
    if a < b then true
    else if b < a then false
    else charListLe as bs

/-- SQLite `TEXT` ordering, used by `ORDER BY` on text columns. -/
def strLe (a b : String) : Bool := charListLe a.data b.data

/-- Python `s or None`: the empty string is coerced to SQL NULL, any other
string is stored as itself (src/database.py passes `x or None` for optional
free-text parameters). -/
def orNone (s : String) : Option String := if s = "" then none else some s

/-- Row of the `cases` table (src/database.py, init_db).  The legacy columns
`address`, `latitude`, `longitude` and `crime_type` are kept because the
migration reads them; `add_case` leaves the three location ones NULL and
inserts the sentinel for `crime_type`.  `is_murder` is an INTEGER 0/1 written
from a Python bool. -/
structure CaseRow where
  id : Nat
  title : String
  crime_type : String
  date_occurred : String
  address : Option String
  latitude : Option ℚ
  longitude : Option ℚ
  crime_scene_address : Option String
  crime_scene_lat : Option ℚ
  crime_scene_lon : Option ℚ
  body_found_address : Option String
  body_found_lat : Option ℚ
  body_found_lon : Option ℚ
  is_murder : Bool
  victim_count : Option Int
  mo_description : Option String
  victim_profile : Option String
  status : String
  created_at : Nat
deriving DecidableEq

/-- Row of `case_crime_types` (no timestamp column in the schema). -/
structure CaseCrimeTypeRow where
  id : Nat
  case_id : Nat
  crime_type : String
  sort_order : Nat
deriving DecidableEq

/-- Row of `case_tags`. -/
structure CaseTagRow where
  id : Nat
  case_id : Nat
  tag : String
deriving DecidableEq

/-- Row of `suspects`. -/
structure SuspectRow where
  id : Nat
  name : String
  description : Option String
  known_aliases : Option String
  created_at : Nat
deriving DecidableEq

/-- Row of `suspect_crime_history`. -/
structure HistoryRow where
  id : Nat
  suspect_id : Nat
  crime_type : String
  date_of_crime : Option String
  conviction_status : String
  notes : Option String
  created_at : Nat
deriving DecidableEq

/-- Row of `suspect_case_links`. -/
structure SuspectCaseLinkRow where
  id : Nat
  suspect_id : Nat
  case_id : Nat
  connection_type : String
  notes : Option String
  created_at : Nat
deriving DecidableEq

/-- Row of `case_links`.  The schema declares `CHECK(case_id_1 < case_id_2)`
and foreign keys on both columns, but no UNIQUE constraint on the pair. -/
structure CaseLinkRow where
  id : Nat
  case_id_1 : Nat
  case_id_2 : Nat
  similarity_note : String
  created_at : Nat
deriving DecidableEq

/-- Row of `timeline_events`. -/
structure TimelineEventRow where
  id : Nat
  case_id : Nat
  event_timestamp : String
  title : String
  description : Option String
  created_at : Nat
deriving DecidableEq

/-- Row of `projects` (`name` is UNIQUE). -/
structure ProjectRow where
  id : Nat
  name : String
  description : Option String
  created_at : Nat
deriving DecidableEq

/-- Row of `project_cases` (`UNIQUE(project_id, case_id)`). -/
structure ProjectCaseRow where
  id : Nat
  project_id : Nat
  case_id : Nat
  added_at : Nat
deriving DecidableEq

/-- The whole store: one list per table, kept in rowid (insertion) order as
SQLite scans them, the next rowid of each table, and a logical clock for the
`datetime('now')` defaults. -/
structure DBState where
  cases : List CaseRow
  case_crime_types : List CaseCrimeTypeRow
  case_tags : List CaseTagRow
  suspects : List SuspectRow
  suspect_crime_history : List HistoryRow
  suspect_case_links : List SuspectCaseLinkRow
  case_links : List CaseLinkRow
  timeline_events : List TimelineEventRow
  projects : List ProjectRow
  project_cases : List ProjectCaseRow
  next_case_id : Nat
  next_cct_id : Nat
  next_tag_id : Nat
  next_suspect_id : Nat
  next_history_id : Nat
  next_scl_id : Nat
  next_case_link_id : Nat
  next_event_id : Nat
  next_project_id : Nat
  next_pc_id : Nat
  clock : Nat
deriving DecidableEq

/-- The store produced by `init_db` on a fresh database file: all eleven
tables exist and are empty, rowids start at 1. -/
def init_db : DBState :=
  { cases := [], case_crime_types := [], case_tags := [], suspects := []
    suspect_crime_history := [], suspect_case_links := [], case_links := []
    timeline_events := [], projects := [], project_cases := []
    next_case_id := 1, next_cct_id := 1, next_tag_id := 1, next_suspect_id := 1
    next_history_id := 1, next_scl_id := 1, next_case_link_id := 1
    next_event_id := 1, next_project_id := 1, next_pc_id := 1, clock := 0 }

/-- Errors surfaced by SQLite: uniqueness violations, CHECK violations and
foreign-key violations are all `sqlite3.IntegrityError`s but carry distinct
messages (the UI pages match on the message text). -/
inductive DBError where
  | uniqueViolation
  | checkViolation
  | fkViolation
deriving DecidableEq

/-- Does a case row with this id exist (foreign-key target check)? -/
def caseExists (cs : List CaseRow) (x : Nat) : Bool := cs.any (fun r => r.id == x)

/-- Does a suspect row with this id exist? -/
def suspectExists (ss : List SuspectRow) (x : Nat) : Bool := ss.any (fun r => r.id == x)

/-- Does a project row with this id exist? -/
def projectExists (ps : List ProjectRow) (x : Nat) : Bool := ps.any (fun r => r.id == x)

/-- INSERT INTO cases of add_case (src/database.py).  The legacy location
columns are not named by the INSERT and stay NULL, `crime_type` gets the
migration sentinel, and the four optional free-text arguments go through
Python `x or None`. -/
def add_case (s : DBState) (title date_occurred status mo_description victim_profile : String)
    (is_murder : Bool) (victim_count : Option Int)
    (crime_scene_address : String) (crime_scene_lat crime_scene_lon : Option ℚ)
    (body_found_address : String) (body_found_lat body_found_lon : Option ℚ) :
    Nat × DBState :=
  let row : CaseRow :=
    { id := s.next_case_id, title := title, crime_type := "__migrated__"
      date_occurred := date_occurred
      address := none, latitude := none, longitude := none
      crime_scene_address := orNone crime_scene_address
      crime_scene_lat := crime_scene_lat, crime_scene_lon := crime_scene_lon
      body_found_address := orNone body_found_address
      body_found_lat := body_found_lat, body_found_lon := body_found_lon
      is_murder := is_murder, victim_count := victim_count
      mo_description := orNone mo_description
      victim_profile := orNone victim_profile
      status := status, created_at := s.clock }
  (s.next_case_id,
   { s with cases := s.cases ++ [row], next_case_id := s.next_case_id + 1
            clock := s.clock + 1 })

/-- SELECT * FROM cases WHERE id = ? (fetchone), absent id gives None. -/
def get_case (s : DBState) (case_id : Nat) : Option CaseRow :=
  s.cases.find? (fun r => r.id == case_id)

/-- ORDER BY date_occurred DESC: row a precedes row b when b's date is at
most a's in SQLite TEXT order.  SQLite sorts the table-scan output, so ties
keep rowid (insertion) order; we model the sort as the stable
`List.insertionSort`. -/
def caseDateDesc (a b : CaseRow) : Prop := strLe b.date_occurred a.date_occurred = true

instance : DecidableRel caseDateDesc := fun _ _ => decEq _ _

/-- get_all_cases: without a project id, all rows of `cases` ordered by
`date_occurred DESC`; with one, the inner join with `project_cases` on
`pc.case_id = c.id AND pc.project_id = ?` (one joined row per matching
membership row), same ordering. -/
def get_all_cases (s : DBState) (project_id : Option Nat) : List CaseRow :=
  match project_id with
  | none => List.insertionSort caseDateDesc s.cases
  | some pid =>
      List.insertionSort caseDateDesc
        (s.cases.flatMap (fun c =>
          (s.project_cases.filter
            (fun pc => pc.case_id == c.id && pc.project_id == pid)).map (fun _ => c)))

/-- Patch object for update_case.  The Python function takes `**fields`; all
of its callers pass only the mutable attribute columns below (never `id`),
and the UPDATE sets exactly the supplied ones. -/
structure CasePatch where
  title : Option String
  date_occurred : Option String
  status : Option String
  mo_description : Option (Option String)
  victim_profile : Option (Option String)
  is_murder : Option Bool
  victim_count : Option (Option Int)
  crime_scene_address : Option (Option String)
  crime_scene_lat : Option (Option ℚ)
  crime_scene_lon : Option (Option ℚ)
  body_found_address : Option (Option String)
  body_found_lat : Option (Option ℚ)
  body_found_lon : Option (Option ℚ)
deriving DecidableEq

/-- Apply a patch to one row: UPDATE cases SET f = ? for the present fields. -/
def applyCasePatch (p : CasePatch) (r : CaseRow) : CaseRow :=
  { r with
    title := p.title.getD r.title
    date_occurred := p.date_occurred.getD r.date_occurred
    status := p.status.getD r.status
    mo_description := p.mo_description.getD r.mo_description
    victim_profile := p.victim_profile.getD r.victim_profile
    is_murder := p.is_murder.getD r.is_murder
    victim_count := p.victim_count.getD r.victim_count
    crime_scene_address := p.crime_scene_address.getD r.crime_scene_address
    crime_scene_lat := p.crime_scene_lat.getD r.crime_scene_lat
    crime_scene_lon := p.crime_scene_lon.getD r.crime_scene_lon
    body_found_address := p.body_found_address.getD r.body_found_address
    body_found_lat := p.body_found_lat.getD r.body_found_lat
    body_found_lon := p.body_found_lon.getD r.body_found_lon }

/-- UPDATE cases SET ... WHERE id = ? (update_case). -/
def update_case (s : DBState) (case_id : Nat) (p : CasePatch) : DBState :=
  { s with cases := s.cases.map (fun r => if r.id == case_id then applyCasePatch p r else r) }

/-- DELETE FROM cases WHERE id = ? with PRAGMA foreign_keys = ON: every
dependent table declares ON DELETE CASCADE, so deleting an existing case row
also deletes each row referencing it (case_links in either position).  The
cascade fires only for rows actually deleted, hence the existence guard. -/
def delete_case (s : DBState) (case_id : Nat) : DBState :=
  if caseExists s.cases case_id then
    { s with
      cases := s.cases.filter (fun r => !(r.id == case_id))
      case_crime_types := s.case_crime_types.filter (fun r => !(r.case_id == case_id))
      case_tags := s.case_tags.filter (fun r => !(r.case_id == case_id))
      suspect_case_links := s.suspect_case_links.filter (fun r => !(r.case_id == case_id))
      case_links := s.case_links.filter
        (fun r => !(r.case_id_1 == case_id) && !(r.case_id_2 == case_id))
      timeline_events := s.timeline_events.filter (fun r => !(r.case_id == case_id))
      project_cases := s.project_cases.filter (fun r => !(r.case_id == case_id)) }
  else s

/-- The insert loop of set_case_crime_types: `INSERT OR IGNORE` of
`(case_id, ct, i)` for `i, ct in enumerate(crime_types)`; a row whose
`(case_id, crime_type)` pair already exists is skipped by the UNIQUE
constraint and does not consume a rowid. -/
def cctInsertLoop (case_id : Nat) :
    Nat → Nat → List CaseCrimeTypeRow → List String → List CaseCrimeTypeRow × Nat
  | _, next, acc, [] => (acc, next)
  | i, next, acc, ct :: rest =>
    if acc.any (fun r => r.case_id == case_id && r.crime_type == ct) then
      cctInsertLoop case_id (i + 1) next acc rest
    else
      cctInsertLoop case_id (i + 1) (next + 1)
        (acc ++ [{ id := next, case_id := case_id, crime_type := ct, sort_order := i }]) rest

/-- set_case_crime_types: DELETE all rows of the case, then insert the given
types with ascending sort_order.  If the case id does not exist and the list
is non-empty, the first insert raises a foreign-key violation and the
uncommitted transaction (including the DELETE) is rolled back. -/
def set_case_crime_types (s : DBState) (case_id : Nat) (crime_types : List String) :
    Except DBError DBState :=
  if crime_types.isEmpty || caseExists s.cases case_id then
    let t := cctInsertLoop case_id 0 s.next_cct_id
      (s.case_crime_types.filter (fun r => !(r.case_id == case_id))) crime_types
    .ok { s with case_crime_types := t.1, next_cct_id := t.2 }
  else .error .fkViolation

/-- Ordering of get_case_crime_types: ORDER BY sort_order ASC (stable over
the rowid scan). -/
def cctOrder (a b : CaseCrimeTypeRow) : Prop := a.sort_order ≤ b.sort_order

instance : DecidableRel cctOrder := fun a b => Nat.decLe a.sort_order b.sort_order

/-- SELECT crime_type FROM case_crime_types WHERE case_id = ? ORDER BY
sort_order ASC. -/
def get_case_crime_types (s : DBState) (case_id : Nat) : List String :=
  (List.insertionSort cctOrder
    (s.case_crime_types.filter (fun r => r.case_id == case_id))).map (fun r => r.crime_type)

/-- Same query with LIMIT 1: the lowest-sort_order crime type, if any. -/
def get_primary_crime_type (s : DBState) (case_id : Nat) : Option String :=
  ((List.insertionSort cctOrder
    (s.case_crime_types.filter (fun r => r.case_id == case_id))).head?).map
      (fun r => r.crime_type)

/-- Insert loop of set_case_tags (INSERT OR IGNORE, UNIQUE(case_id, tag)). -/
def tagInsertLoop (case_id : Nat) :
    Nat → List CaseTagRow → List String → List CaseTagRow × Nat
  | next, acc, [] => (acc, next)
  | next, acc, tag :: rest =>
    if acc.any (fun r => r.case_id == case_id && r.tag == tag) then
      tagInsertLoop case_id next acc rest
    else
      tagInsertLoop case_id (next + 1)
        (acc ++ [{ id := next, case_id := case_id, tag := tag }]) rest

/-- set_case_tags: replace-all, like set_case_crime_types but unordered. -/
def set_case_tags (s : DBState) (case_id : Nat) (tags : List String) :
    Except DBError DBState :=
  if tags.isEmpty || caseExists s.cases case_id then
    let t := tagInsertLoop case_id s.next_tag_id
      (s.case_tags.filter (fun r => !(r.case_id == case_id))) tags
    .ok { s with case_tags := t.1, next_tag_id := t.2 }
  else .error .fkViolation

/-- INSERT INTO suspects (add_suspect); no `or None` coercion is applied to
its arguments in the source, they are stored as given. -/
def add_suspect (s : DBState) (name : String) (description known_aliases : Option String) :
    Nat × DBState :=
  let row : SuspectRow :=
    { id := s.next_suspect_id, name := name, description := description
      known_aliases := known_aliases, created_at := s.clock }
  (s.next_suspect_id,
   { s with suspects := s.suspects ++ [row], next_suspect_id := s.next_suspect_id + 1
            clock := s.clock + 1 })

/-- Patch object for update_suspect (callers pass name, description,
known_aliases; never id). -/
structure SuspectPatch where
  name : Option String
  description : Option (Option String)
  known_aliases : Option (Option String)
deriving DecidableEq

/-- UPDATE suspects SET ... WHERE id = ?. -/
def update_suspect (s : DBState) (suspect_id : Nat) (p : SuspectPatch) : DBState :=
  { s with suspects := s.suspects.map (fun r =>
      if r.id == suspect_id then
        { r with name := p.name.getD r.name
                 description := p.description.getD r.description
                 known_aliases := p.known_aliases.getD r.known_aliases }
      else r) }

/-- DELETE FROM suspects WHERE id = ?; `suspect_crime_history` and
`suspect_case_links` reference suspects with ON DELETE CASCADE. -/
def delete_suspect (s : DBState) (suspect_id : Nat) : DBState :=
  if suspectExists s.suspects suspect_id then
    { s with
      suspects := s.suspects.filter (fun r => !(r.id == suspect_id))
      suspect_crime_history :=
        s.suspect_crime_history.filter (fun r => !(r.suspect_id == suspect_id))
      suspect_case_links :=
        s.suspect_case_links.filter (fun r => !(r.suspect_id == suspect_id)) }
  else s

/-- INSERT INTO suspect_crime_history (add_suspect_crime_history); the
`notes` argument goes through `notes or None`, `date_of_crime` is passed
through as is. -/
def add_suspect_crime_history (s : DBState) (suspect_id : Nat) (crime_type : String)
    (date_of_crime : Option String) (conviction_status notes : String) :
    Except DBError (Nat × DBState) :=
  if suspectExists s.suspects suspect_id then
    let row : HistoryRow :=
      { id := s.next_history_id, suspect_id := suspect_id, crime_type := crime_type
        date_of_crime := date_of_crime, conviction_status := conviction_status
        notes := orNone notes, created_at := s.clock }
    .ok (s.next_history_id,
      { s with suspect_crime_history := s.suspect_crime_history ++ [row]
               next_history_id := s.next_history_id + 1, clock := s.clock + 1 })
  else .error .fkViolation

/-- DELETE FROM suspect_crime_history WHERE id = ? (no dependents). -/
def delete_suspect_crime_history_entry (s : DBState) (entry_id : Nat) : DBState :=
  { s with suspect_crime_history :=
      s.suspect_crime_history.filter (fun r => !(r.id == entry_id)) }

/-- INSERT INTO suspect_case_links (link_suspect_to_case).  The table has
`UNIQUE(suspect_id, case_id, connection_type)` and foreign keys to both
parents; `notes` goes through `notes or None`.  A duplicate triple raises a
UNIQUE constraint violation, which the UI distinguishes from other errors by
its message. -/
def link_suspect_to_case (s : DBState) (suspect_id case_id : Nat)
    (connection_type notes : String) : Except DBError (Nat × DBState) :=
  if !(suspectExists s.suspects suspect_id) || !(caseExists s.cases case_id) then
    .error .fkViolation
  else if s.suspect_case_links.any (fun r =>
      r.suspect_id == suspect_id && r.case_id == case_id
        && r.connection_type == connection_type) then
    .error .uniqueViolation
  else
    let row : SuspectCaseLinkRow :=
      { id := s.next_scl_id, suspect_id := suspect_id, case_id := case_id
        connection_type := connection_type, notes := orNone notes, created_at := s.clock }
    .ok (s.next_scl_id,
      { s with suspect_case_links := s.suspect_case_links ++ [row]
               next_scl_id := s.next_scl_id + 1, clock := s.clock + 1 })

/-- DELETE FROM suspect_case_links WHERE id = ?. -/
def delete_suspect_case_link (s : DBState) (link_id : Nat) : DBState :=
  { s with suspect_case_links := s.suspect_case_links.filter (fun r => !(r.id == link_id)) }

/-- link_cases: the pair is canonicalised with min/max before the INSERT; the
table enforces `CHECK(case_id_1 < case_id_2)` (which rejects self-links) and
foreign keys to both cases, but carries no UNIQUE constraint on the pair. -/
def link_cases (s : DBState) (id_a id_b : Nat) (similarity_note : String) :
    Except DBError (Nat × DBState) :=
  let case_id_1 := min id_a id_b
  let case_id_2 := max id_a id_b
  if !(decide (case_id_1 < case_id_2)) then .error .checkViolation
  else if !(caseExists s.cases case_id_1) || !(caseExists s.cases case_id_2) then
    .error .fkViolation
  else
    let row : CaseLinkRow :=
      { id := s.next_case_link_id, case_id_1 := case_id_1, case_id_2 := case_id_2
        similarity_note := similarity_note, created_at := s.clock }
    .ok (s.next_case_link_id,
      { s with case_links := s.case_links ++ [row]
               next_case_link_id := s.next_case_link_id + 1, clock := s.clock + 1 })

/-- DELETE FROM case_links WHERE id = ?. -/
def delete_case_link (s : DBState) (link_id : Nat) : DBState :=
  { s with case_links := s.case_links.filter (fun r => !(r.id == link_id)) }

/-- INSERT INTO timeline_events (add_timeline_event); `description` goes
through `description or None`. -/
def add_timeline_event (s : DBState) (case_id : Nat)
    (event_timestamp title description : String) : Except DBError (Nat × DBState) :=
  if caseExists s.cases case_id then
    let row : TimelineEventRow :=
      { id := s.next_event_id, case_id := case_id, event_timestamp := event_timestamp
        title := title, description := orNone description, created_at := s.clock }
    .ok (s.next_event_id,
      { s with timeline_events := s.timeline_events ++ [row]
               next_event_id := s.next_event_id + 1, clock := s.clock + 1 })
  else .error .fkViolation

/-- DELETE FROM timeline_events WHERE id = ?. -/
def delete_timeline_event (s : DBState) (event_id : Nat) : DBState :=
  { s with timeline_events := s.timeline_events.filter (fun r => !(r.id == event_id)) }

/-- INSERT INTO projects (add_project); `name` is UNIQUE, `description` goes
through `description or None`. -/
def add_project (s : DBState) (name description : String) : Except DBError (Nat × DBState) :=
  if s.projects.any (fun r => r.name == name) then .error .uniqueViolation
  else
    let row : ProjectRow :=
      { id := s.next_project_id, name := name, description := orNone description
        created_at := s.clock }
    .ok (s.next_project_id,
      { s with projects := s.projects ++ [row]
               next_project_id := s.next_project_id + 1, clock := s.clock + 1 })

/-- Patch object for update_project (callers pass name and description). -/
structure ProjectPatch where
  name : Option String
  description : Option (Option String)
deriving DecidableEq

/-- UPDATE projects SET ... WHERE id = ?.  (The dynamic UPDATE of the source
is not guarded by the UNIQUE name constraint check here; none of the claims
concerns renaming to a duplicate.) -/
def update_project (s : DBState) (project_id : Nat) (p : ProjectPatch) : DBState :=
  { s with projects := s.projects.map (fun r =>
      if r.id == project_id then
        { r with name := p.name.getD r.name
                 description := p.description.getD r.description }
      else r) }

/-- DELETE FROM projects WHERE id = ?; `project_cases` references projects
with ON DELETE CASCADE. -/
def delete_project (s : DBState) (project_id : Nat) : DBState :=
  if projectExists s.projects project_id then
    { s with
      projects := s.projects.filter (fun r => !(r.id == project_id))
      project_cases := s.project_cases.filter (fun r => !(r.project_id == project_id)) }
  else s

/-- assign_case_to_project: INSERT OR IGNORE INTO project_cases with
`UNIQUE(project_id, case_id)`.  A row skipped by IGNORE because the pair
exists raises nothing and changes nothing; otherwise the foreign keys are
checked (conflict resolution does not apply to them) and the row inserted. -/
def assign_case_to_project (s : DBState) (project_id case_id : Nat) :
    Except DBError DBState :=
  if s.project_cases.any (fun r => r.project_id == project_id && r.case_id == case_id) then
    .ok s
  else if !(projectExists s.projects project_id) || !(caseExists s.cases case_id) then
    .error .fkViolation
  else
    .ok { s with
      project_cases := s.project_cases ++
        [{ id := s.next_pc_id, project_id := project_id, case_id := case_id
           added_at := s.clock }]
      next_pc_id := s.next_pc_id + 1, clock := s.clock + 1 }

/-- DELETE FROM project_cases WHERE project_id = ? AND case_id = ?. -/
def unassign_case_from_project (s : DBState) (project_id case_id : Nat) : DBState :=
  { s with
    project_cases := s.project_cases.filter
      (fun r => !(r.project_id == project_id && r.case_id == case_id)) }

/-- Step 3 of migrate_db on one row: UPDATE cases SET crime_scene fields from
the legacy single-location fields WHERE crime_scene_lat IS NULL AND latitude
IS NOT NULL. -/
def migrateStep3Row (r : CaseRow) : CaseRow :=
  if r.crime_scene_lat.isNone && !r.latitude.isNone then
    { r with crime_scene_address := r.address, crime_scene_lat := r.latitude
             crime_scene_lon := r.longitude }
  else r

/-- Step 3 of migrate_db. -/
def migrateStep3 (s : DBState) : DBState :=
  { s with cases := s.cases.map migrateStep3Row }

/-- The insert loop of step 4: INSERT OR IGNORE INTO case_crime_types
`(case_id, crime_type, 0)` for every case row whose legacy `crime_type` is
not the sentinel. -/
def step4InsertLoop : Nat → List CaseCrimeTypeRow → List (Nat × String) →
    List CaseCrimeTypeRow × Nat
  | next, acc, [] => (acc, next)
  | next, acc, (cid, ct) :: rest =>
    if acc.any (fun r => r.case_id == cid && r.crime_type == ct) then
      step4InsertLoop next acc rest
    else
      step4InsertLoop (next + 1)
        (acc ++ [{ id := next, case_id := cid, crime_type := ct, sort_order := 0 }]) rest

/-- Step 4 of migrate_db: move the legacy single `crime_type` of each
unmigrated case into `case_crime_types`, then stamp those cases with the
sentinel (the UPDATE runs only when some unmigrated row was found). -/
def migrateStep4 (s : DBState) : DBState :=
  let rows := s.cases.filter (fun r => !(r.crime_type == "__migrated__"))
  let t := step4InsertLoop s.next_cct_id s.case_crime_types
    (rows.map (fun r => (r.id, r.crime_type)))
  let s' := { s with case_crime_types := t.1, next_cct_id := t.2 }
  if rows.isEmpty then s'
  else { s' with cases := s'.cases.map (fun r =>
          if !(r.crime_type == "__migrated__") then { r with crime_type := "__migrated__" }
          else r) }

/-- Step 5 of migrate_db on one row: the two consecutive UPDATEs normalising
legacy status values (Open, Linked become Active; Closed becomes Solved). -/
def migrateStep5Row (r : CaseRow) : CaseRow :=
  let r1 := if r.status == "Open" || r.status == "Linked" then { r with status := "Active" }
            else r
  if r1.status == "Closed" then { r1 with status := "Solved" } else r1

/-- Step 5 of migrate_db. -/
def migrateStep5 (s : DBState) : DBState :=
  { s with cases := s.cases.map migrateStep5Row }

/-- migrate_db.  Steps 1 and 2 of the source only touch the schema: the
ALTER TABLE ADD COLUMN statements fail on the initialised schema (every
column already exists) and the failure is swallowed, and the CREATE TABLE IF
NOT EXISTS statements find every table present; on a store whose schema
init_db has brought to the current shape they change nothing, so only the
three data steps remain. -/
def migrate_db (s : DBState) : DBState :=
  migrateStep5 (migrateStep4 (migrateStep3 s))

/-- Unfolding of the character-list order at a cons on both sides. -/
theorem charListLe_cons_iff {a b : Char} {as bs : List Char} :
    charListLe (a :: as) (b :: bs) = true ↔ a < b ∨ (a = b ∧ charListLe as bs = true) := by
  rw [show charListLe (a :: as) (b :: bs) =
        (if a < b then true else if b < a then false else charListLe as bs) from rfl]
  rcases lt_trichotomy a b with h | h | h
  · simp [h]
  · subst h
    simp [lt_irrefl]
  · have h1 : ¬ a < b := asymm h
    simp [h1, h, ne_of_gt h]

/-- The TEXT order is reflexive. -/
theorem charListLe_refl : ∀ l : List Char, charListLe l l = true
  | [] => rfl
  | _ :: as => charListLe_cons_iff.mpr (Or.inr ⟨rfl, charListLe_refl as⟩)

/-- The TEXT order is total. -/
theorem charListLe_total : ∀ l1 l2 : List Char,
    charListLe l1 l2 = true ∨ charListLe l2 l1 = true
  | [], _ => Or.inl rfl
  | _ :: _, [] => Or.inr rfl
  | a :: as, b :: bs => by
    rcases lt_trichotomy a b with h | h | h
    · exact Or.inl (charListLe_cons_iff.mpr (Or.inl h))
    · rcases charListLe_total as bs with h' | h'
      · exact Or.inl (charListLe_cons_iff.mpr (Or.inr ⟨h, h'⟩))
      · exact Or.inr (charListLe_cons_iff.mpr (Or.inr ⟨h.symm, h'⟩))
    · exact Or.inr (charListLe_cons_iff.mpr (Or.inl h))

/-- The TEXT order is transitive. -/
theorem charListLe_trans : ∀ l1 l2 l3 : List Char,
    charListLe l1 l2 = true → charListLe l2 l3 = true → charListLe l1 l3 = true
  | [], _, _, _, _ => rfl
  | _ :: _, [], _, h1, _ => by simp [charListLe] at h1
  | _ :: _, _ :: _, [], _, h2 => by simp [charListLe] at h2
  | a :: as, b :: bs, c :: cs, h1, h2 => by
    rcases charListLe_cons_iff.mp h1 with hab | ⟨hab, h1'⟩
    · rcases charListLe_cons_iff.mp h2 with hbc | ⟨hbc, _⟩
      · exact charListLe_cons_iff.mpr (Or.inl (lt_trans hab hbc))
      · exact charListLe_cons_iff.mpr (Or.inl (hbc ▸ hab))
    · rcases charListLe_cons_iff.mp h2 with hbc | ⟨hbc, h2'⟩
      · exact charListLe_cons_iff.mpr (Or.inl (hab ▸ hbc))
      · exact charListLe_cons_iff.mpr
          (Or.inr ⟨hab.trans hbc, charListLe_trans as bs cs h1' h2'⟩)

theorem strLe_refl (a : String) : strLe a a = true := charListLe_refl a.data

theorem strLe_total (a b : String) : strLe a b = true ∨ strLe b a = true :=
  charListLe_total a.data b.data

theorem strLe_trans {a b c : String} (h1 : strLe a b = true) (h2 : strLe b c = true) :
    strLe a c = true :=
  charListLe_trans a.data b.data c.data h1 h2

instance : IsTotal CaseRow caseDateDesc :=
  ⟨fun a b => (strLe_total b.date_occurred a.date_occurred).imp id id⟩

instance : IsTrans CaseRow caseDateDesc :=
  ⟨fun _ _ _ h1 h2 => strLe_trans h2 h1⟩

instance : IsTotal CaseCrimeTypeRow cctOrder := ⟨fun a b => Nat.le_total a.sort_order b.sort_order⟩

instance : IsTrans CaseCrimeTypeRow cctOrder := ⟨fun _ _ _ h1 h2 => Nat.le_trans h1 h2⟩

/-- Existence of a case row, in membership form. -/
theorem caseExists_iff {cs : List CaseRow} {x : Nat} :
    caseExists cs x = true ↔ ∃ r ∈ cs, r.id = x := by
  simp [caseExists, List.any_eq_true]

/-- Existence of a suspect row, in membership form. -/
theorem suspectExists_iff {ss : List SuspectRow} {x : Nat} :
    suspectExists ss x = true ↔ ∃ r ∈ ss, r.id = x := by
  simp [suspectExists, List.any_eq_true]

/-- Existence of a project row, in membership form. -/
theorem projectExists_iff {ps : List ProjectRow} {x : Nat} :
    projectExists ps x = true ↔ ∃ r ∈ ps, r.id = x := by
  simp [projectExists, List.any_eq_true]

/-- A minimal case row used to build concrete witness stores. -/
def mkCaseRow (i : Nat) (d : String) : CaseRow :=
  { id := i, title := "t", crime_type := "__migrated__", date_occurred := d
    address := none, latitude := none, longitude := none
    crime_scene_address := none, crime_scene_lat := none, crime_scene_lon := none
    body_found_address := none, body_found_lat := none, body_found_lon := none
    is_murder := false, victim_count := none, mo_description := none
    victim_profile := none, status := "Active", created_at := 0 }

/-- A store holding exactly the two cases with ids 2 and 5. -/
def twoCaseState : DBState :=
  { init_db with cases := [mkCaseRow 2 "2000-01-01", mkCaseRow 5 "2001-01-01"]
                 next_case_id := 6 }

/-- The store after linking cases 2 and 5 once. -/
def twoCaseLinked : DBState :=
  { twoCaseState with
    case_links := [{ id := 1, case_id_1 := 2, case_id_2 := 5
                     similarity_note := "note", created_at := 0 }]
    next_case_link_id := 2, clock := 1 }

/-- The store after linking cases 2 and 5 a second time: the schema carries
no UNIQUE constraint on the pair, so a second row for the same pair is
accepted. -/
def twoCaseDoubleLinked : DBState :=
  { twoCaseState with
    case_links := [{ id := 1, case_id_1 := 2, case_id_2 := 5
                     similarity_note := "note", created_at := 0 },
                   { id := 2, case_id_1 := 2, case_id_2 := 5
                     similarity_note := "note2", created_at := 1 }]
    next_case_link_id := 3, clock := 2 }

/-- C6: for every store and every case id c, linkCases(c, c, note) fails with
the CHECK(case_id_1 < case_id_2) violation, and every successful linkCases
call preserves the invariant that all stored case-link rows have their two
case identifiers in strictly ascending canonical order, whatever the
argument order. -/
theorem C6_self_link_rejected_and_ascending :
    (∀ (s : DBState) (c : Nat) (note : String),
      link_cases s c c note = .error .checkViolation) ∧
    (∀ (s : DBState) (a b : Nat) (note : String) (i : Nat) (s' : DBState),
      link_cases s a b note = .ok (i, s') →
      (∀ r ∈ s.case_links, r.case_id_1 < r.case_id_2) →
      ∀ r ∈ s'.case_links, r.case_id_1 < r.case_id_2) := by
  constructor
  · intro s c note
    simp [link_cases]
  · intro s a b note i s' h hinv r hr
    rw [link_cases] at h
    split at h
    next => exact absurd h (by simp)
    next hc1 =>
      split at h
      next => exact absurd h (by simp)
      next =>
        simp only [decide_eq_true_eq, Bool.not_eq_true'] at hc1
        rw [Except.ok.injEq, Prod.mk.injEq] at h
        obtain ⟨-, rfl⟩ := h
        simp only [List.mem_append, List.mem_singleton] at hr
        rcases hr with hold | rfl
        · exact hinv r hold
        · exact of_decide_eq_true (by simpa using hc1)

/-- Witness for C6: the self-link linkCases(7, 7, "x") fails on the concrete
two-case store, and after the concrete successful call
linkCases(twoCaseState, 2, 5, "note") every stored pair is ascending. -/
theorem C6_witness :
    link_cases twoCaseState 7 7 "x" = .error .checkViolation ∧
    ∀ r ∈ twoCaseLinked.case_links, r.case_id_1 < r.case_id_2 :=
  ⟨C6_self_link_rejected_and_ascending.1 twoCaseState 7 "x",
   C6_self_link_rejected_and_ascending.2 twoCaseState 2 5 "note" 1 twoCaseLinked
     (by rfl) (by decide)⟩

/-- C1 (code bug): the spec and the UI caller (pages/connections.py matches
the message "UNIQUE constraint" to report "These cases are already linked")
require a second linkCases call on an already linked pair to fail as a
duplicate, but the case_links schema declares no UNIQUE constraint on
(case_id_1, case_id_2): after linkCases(5, 2, "note") succeeds, the call
linkCases(2, 5, "note2") also succeeds and the store ends up with two rows
for the canonicalised pair (2, 5). -/
theorem C1_duplicate_pair_accepted :
    link_cases twoCaseState 5 2 "note" = .ok (1, twoCaseLinked) ∧
    link_cases twoCaseLinked 2 5 "note2" = .ok (2, twoCaseDoubleLinked) ∧
    twoCaseDoubleLinked.case_links.map (fun r => (r.case_id_1, r.case_id_2)) =
      [(2, 5), (2, 5)] := by
  refine ⟨by rfl, by rfl, by decide⟩

/-- Number of membership rows for one (project, case) pair. -/
def pcPairCount (s : DBState) (p c : Nat) : Nat :=
  (s.project_cases.filter (fun r => r.project_id == p && r.case_id == c)).length

/-- C7: for an existing project p and case c, assign_case_to_project never
raises, is idempotent (assigning an already present membership returns the
store unchanged), and leaves exactly one (p, c) membership row — the
UNIQUE(project_id, case_id) constraint guarantees at most one was there
before the call. -/
theorem C7_assign_case_idempotent (s : DBState) (p c : Nat)
    (hp : projectExists s.projects p = true) (hc : caseExists s.cases c = true)
    (huniq : pcPairCount s p c ≤ 1) :
    ∃ s', assign_case_to_project s p c = .ok s' ∧
      assign_case_to_project s' p c = .ok s' ∧
      pcPairCount s' p c = 1 := by
  by_cases hex :
      s.project_cases.any (fun r => r.project_id == p && r.case_id == c) = true
  · refine ⟨s, ?_, ?_, ?_⟩
    · rw [assign_case_to_project, if_pos hex]
    · rw [assign_case_to_project, if_pos hex]
    · have h1 : 1 ≤ pcPairCount s p c := by
        rcases List.any_eq_true.mp hex with ⟨r, hr, hpr⟩
        have hm : r ∈ s.project_cases.filter (fun r => r.project_id == p && r.case_id == c) :=
          List.mem_filter.mpr ⟨hr, hpr⟩
        exact List.length_pos.mpr (List.ne_nil_of_mem hm)
      omega
  · have hnil :
        s.project_cases.filter (fun r => r.project_id == p && r.case_id == c) = [] := by
      rw [List.filter_eq_nil_iff]
      intro r hr hpr
      exact hex (List.any_eq_true.mpr ⟨r, hr, hpr⟩)
    refine ⟨{ s with
        project_cases := s.project_cases ++
          [{ id := s.next_pc_id, project_id := p, case_id := c, added_at := s.clock }]
        next_pc_id := s.next_pc_id + 1, clock := s.clock + 1 }, ?_, ?_, ?_⟩
    · rw [assign_case_to_project, if_neg hex, if_neg (by simp [hp, hc])]
    · rw [assign_case_to_project]
      rw [if_pos (by simp [List.any_append])]
    · simp [pcPairCount, List.filter_append, hnil]

/-- A store with one project (id 1) and the two cases of twoCaseState. -/
def projState : DBState :=
  { twoCaseState with
    projects := [{ id := 1, name := "p", description := none, created_at := 0 }]
    next_project_id := 2 }

/-- Witness for C7 at the concrete store projState, project 1, case 2. -/
theorem C7_witness :
    ∃ s', assign_case_to_project projState 1 2 = .ok s' ∧
      assign_case_to_project s' 1 2 = .ok s' ∧
      pcPairCount s' 1 2 = 1 :=
  C7_assign_case_idempotent projState 1 2 (by decide) (by decide) (by decide)

/-- Number of suspect-case link rows for one (suspect, case) pair. -/
def sclPairCount (s : DBState) (sid cid : Nat) : Nat :=
  (s.suspect_case_links.filter (fun r => r.suspect_id == sid && r.case_id == cid)).length

/-- C5: for an existing suspect and case, link_suspect_to_case fails with the
(distinguishable) uniqueness violation exactly when a row with the identical
(suspect, case, connectionType) triple already exists — an error commits
nothing, so the table is unchanged — and when the pair has exactly one link
row, linking the same pair under a different connection type succeeds and
leaves two link rows for the pair. -/
theorem C5_link_suspect_unique_triple (s : DBState) (sid cid : Nat)
    (t t' notes notes' : String)
    (hs : suspectExists s.suspects sid = true) (hc : caseExists s.cases cid = true) :
    ((link_suspect_to_case s sid cid t notes = .error .uniqueViolation) ↔
      ∃ r ∈ s.suspect_case_links,
        r.suspect_id = sid ∧ r.case_id = cid ∧ r.connection_type = t) ∧
    (sclPairCount s sid cid = 1 →
      (∀ r ∈ s.suspect_case_links,
        r.suspect_id = sid → r.case_id = cid → r.connection_type = t) →
      t' ≠ t →
      ∃ i s', link_suspect_to_case s sid cid t' notes' = .ok (i, s') ∧
        sclPairCount s' sid cid = 2) := by
  have hfk : (!(suspectExists s.suspects sid) || !(caseExists s.cases cid)) = false := by
    simp [hs, hc]
  constructor
  · by_cases hany : s.suspect_case_links.any (fun r =>
        r.suspect_id == sid && r.case_id == cid && r.connection_type == t) = true
    · constructor
      · intro _
        rcases List.any_eq_true.mp hany with ⟨r, hr, hcond⟩
        simp only [Bool.and_eq_true, beq_iff_eq] at hcond
        exact ⟨r, hr, hcond.1.1, hcond.1.2, hcond.2⟩
      · intro _
        rw [link_suspect_to_case, if_neg (by simp [hfk]), if_pos hany]
    · constructor
      · intro h
        rw [link_suspect_to_case, if_neg (by simp [hfk]), if_neg hany] at h
        exact absurd h (by simp)
      · intro ⟨r, hr, h1, h2, h3⟩
        exact absurd (List.any_eq_true.mpr ⟨r, hr, by simp [h1, h2, h3]⟩) hany
  · intro hcount htype hne
    have hany' : ¬ s.suspect_case_links.any (fun r =>
        r.suspect_id == sid && r.case_id == cid && r.connection_type == t') = true := by
      intro h
      rcases List.any_eq_true.mp h with ⟨r, hr, hcond⟩
      simp only [Bool.and_eq_true, beq_iff_eq] at hcond
      exact hne (hcond.2 ▸ htype r hr hcond.1.1 hcond.1.2)
    refine ⟨s.next_scl_id,
      { s with
        suspect_case_links := s.suspect_case_links ++
          [{ id := s.next_scl_id, suspect_id := sid, case_id := cid
             connection_type := t', notes := orNone notes', created_at := s.clock }]
        next_scl_id := s.next_scl_id + 1, clock := s.clock + 1 }, ?_, ?_⟩
    · rw [link_suspect_to_case, if_neg (by simp [hfk]), if_neg hany']
    · have hrow : ((fun (r : SuspectCaseLinkRow) => r.suspect_id == sid && r.case_id == cid)
          { id := s.next_scl_id, suspect_id := sid, case_id := cid
            connection_type := t', notes := orNone notes', created_at := s.clock }) = true := by
        simp
      simp only [sclPairCount, List.filter_append] at hcount ⊢
      rw [List.filter_cons, List.filter_nil] at *
      simp only [hrow, if_pos] at *
      simp only [List.length_append, List.length_cons, List.length_nil]
      omega

/-- A store with one suspect (id 1), the two cases of twoCaseState, and one
suspect-case link (suspect 1, case 2, DNA Evidence). -/
def sclState : DBState :=
  { twoCaseState with
    suspects := [{ id := 1, name := "J. Smith", description := none
                   known_aliases := none, created_at := 0 }]
    next_suspect_id := 2
    suspect_case_links := [{ id := 1, suspect_id := 1, case_id := 2
                             connection_type := "DNA Evidence", notes := none
                             created_at := 0 }]
    next_scl_id := 2 }

/-- Witness for C5: repeating the identical (1, 2, DNA Evidence) link on the
concrete store fails with the uniqueness violation, and linking the same
pair as Known Associate succeeds leaving two rows for the pair. -/
theorem C5_witness :
    link_suspect_to_case sclState 1 2 "DNA Evidence" "" = .error .uniqueViolation ∧
    ∃ i s', link_suspect_to_case sclState 1 2 "Known Associate" "" = .ok (i, s') ∧
      sclPairCount s' 1 2 = 2 := by
  have h := C5_link_suspect_unique_triple sclState 1 2 "DNA Evidence" "Known Associate"
    "" "" (by decide) (by decide)
  exact ⟨h.1.mpr (by decide), h.2 (by decide) (by decide) (by decide)⟩

/-- C9: supplying the empty string for an optional free-text argument stores
SQL NULL, not the empty string: the four optional texts of add_case (as
observed through get_case on the new id), and the notes/description
arguments of add_suspect_crime_history, link_suspect_to_case,
add_timeline_event and add_project (as the appended row). -/
theorem C9_empty_string_stored_as_null :
    (∀ (s : DBState) (title date status : String) (im : Bool) (vc : Option Int)
       (lat lon blat blon : Option ℚ),
      (∀ r ∈ s.cases, r.id ≠ s.next_case_id) →
      ∃ r, get_case (add_case s title date status "" "" im vc "" lat lon "" blat blon).2
             (add_case s title date status "" "" im vc "" lat lon "" blat blon).1 = some r ∧
        r.mo_description = none ∧ r.victim_profile = none ∧
        r.crime_scene_address = none ∧ r.body_found_address = none) ∧
    (∀ (s : DBState) (sid : Nat) (ct : String) (dt : Option String) (cst : String)
       (i : Nat) (s' : DBState),
      add_suspect_crime_history s sid ct dt cst "" = .ok (i, s') →
      ∃ row, s'.suspect_crime_history = s.suspect_crime_history ++ [row] ∧
        row.notes = none) ∧
    (∀ (s : DBState) (sid cid : Nat) (ct : String) (i : Nat) (s' : DBState),
      link_suspect_to_case s sid cid ct "" = .ok (i, s') →
      ∃ row, s'.suspect_case_links = s.suspect_case_links ++ [row] ∧
        row.notes = none) ∧
    (∀ (s : DBState) (cid : Nat) (ets etitle : String) (i : Nat) (s' : DBState),
      add_timeline_event s cid ets etitle "" = .ok (i, s') →
      ∃ row, s'.timeline_events = s.timeline_events ++ [row] ∧
        row.description = none) ∧
    (∀ (s : DBState) (pname : String) (i : Nat) (s' : DBState),
      add_project s pname "" = .ok (i, s') →
      ∃ row, s'.projects = s.projects ++ [row] ∧ row.description = none) := by
  refine ⟨?_, ?_, ?_, ?_, ?_⟩
  · intro s title date status im vc lat lon blat blon hfresh
    simp only [add_case, get_case]
    rw [List.find?_append]
    have h1 : s.cases.find? (fun r => r.id == s.next_case_id) = none := by
      rw [List.find?_eq_none]
      intro r hr
      simp [hfresh r hr]
    rw [h1]
    simp [orNone]
  · intro s sid ct dt cst i s' h
    rw [add_suspect_crime_history] at h
    split at h
    next =>
      rw [Except.ok.injEq, Prod.mk.injEq] at h
      obtain ⟨-, rfl⟩ := h
      exact ⟨_, rfl, by simp [orNone]⟩
    next => exact absurd h (by simp)
  · intro s sid cid ct i s' h
    rw [link_suspect_to_case] at h
    split at h
    next => exact absurd h (by simp)
    next =>
      split at h
      next => exact absurd h (by simp)
      next =>
        rw [Except.ok.injEq, Prod.mk.injEq] at h
        obtain ⟨-, rfl⟩ := h
        exact ⟨_, rfl, by simp [orNone]⟩
  · intro s cid ets etitle i s' h
    rw [add_timeline_event] at h
    split at h
    next =>
      rw [Except.ok.injEq, Prod.mk.injEq] at h
      obtain ⟨-, rfl⟩ := h
      exact ⟨_, rfl, by simp [orNone]⟩
    next => exact absurd h (by simp)
  · intro s pname i s' h
    rw [add_project] at h
    split at h
    next => exact absurd h (by simp)
    next =>
      rw [Except.ok.injEq, Prod.mk.injEq] at h
      obtain ⟨-, rfl⟩ := h
      exact ⟨_, rfl, by simp [orNone]⟩

/-- The store produced by add_project on the empty store with an
empty-string description. -/
def projOnlyState : DBState :=
  { init_db with
    projects := [{ id := 1, name := "p", description := none, created_at := 0 }]
    next_project_id := 2, clock := 1 }

/-- Witness for C9: a concrete add_case with all optional texts empty stores
NULL in all four columns, and a concrete add_project with empty description
stores NULL. -/
theorem C9_witness :
    (∃ r, get_case
        (add_case init_db "Doe File" "1999-03-04" "Cold Case" "" "" true (some 1)
          "" none none "" none none).2
        (add_case init_db "Doe File" "1999-03-04" "Cold Case" "" "" true (some 1)
          "" none none "" none none).1 = some r ∧
      r.mo_description = none ∧ r.victim_profile = none ∧
      r.crime_scene_address = none ∧ r.body_found_address = none) ∧
    (∃ row, projOnlyState.projects = init_db.projects ++ [row] ∧
      row.description = none) :=
  ⟨C9_empty_string_stored_as_null.1 init_db "Doe File" "1999-03-04" "Cold Case" true
      (some 1) none none none none (by decide),
   (C9_empty_string_stored_as_null.2.2.2.2 init_db "p" 1 projOnlyState (by rfl))⟩

/-- C10: deleting by an identifier absent from the target table raises no
error and leaves the whole store unchanged, for each delete operation:
delete_case, delete_suspect, delete_case_link, delete_suspect_case_link,
delete_timeline_event, delete_suspect_crime_history_entry and
delete_project (a DELETE matching zero rows deletes nothing and triggers no
cascade). -/
theorem C10_delete_missing_id_noop :
    (∀ (s : DBState) (x : Nat), (∀ r ∈ s.cases, r.id ≠ x) → delete_case s x = s) ∧
    (∀ (s : DBState) (x : Nat), (∀ r ∈ s.suspects, r.id ≠ x) → delete_suspect s x = s) ∧
    (∀ (s : DBState) (x : Nat), (∀ r ∈ s.case_links, r.id ≠ x) →
      delete_case_link s x = s) ∧
    (∀ (s : DBState) (x : Nat), (∀ r ∈ s.suspect_case_links, r.id ≠ x) →
      delete_suspect_case_link s x = s) ∧
    (∀ (s : DBState) (x : Nat), (∀ r ∈ s.timeline_events, r.id ≠ x) →
      delete_timeline_event s x = s) ∧
    (∀ (s : DBState) (x : Nat), (∀ r ∈ s.suspect_crime_history, r.id ≠ x) →
      delete_suspect_crime_history_entry s x = s) ∧
    (∀ (s : DBState) (x : Nat), (∀ r ∈ s.projects, r.id ≠ x) → delete_project s x = s) := by
  refine ⟨?_, ?_, ?_, ?_, ?_, ?_, ?_⟩
  · intro s x h
    rw [delete_case, if_neg]
    intro hex
    rcases caseExists_iff.mp hex with ⟨r, hr, hid⟩
    exact h r hr hid
  · intro s x h
    rw [delete_suspect, if_neg]
    intro hex
    rcases suspectExists_iff.mp hex with ⟨r, hr, hid⟩
    exact h r hr hid
  · intro s x h
    rw [delete_case_link]
    rw [List.filter_eq_self.mpr (fun r hr => by simp [h r hr])]
  · intro s x h
    rw [delete_suspect_case_link]
    rw [List.filter_eq_self.mpr (fun r hr => by simp [h r hr])]
  · intro s x h
    rw [delete_timeline_event]
    rw [List.filter_eq_self.mpr (fun r hr => by simp [h r hr])]
  · intro s x h
    rw [delete_suspect_crime_history_entry]
    rw [List.filter_eq_self.mpr (fun r hr => by simp [h r hr])]
  · intro s x h
    rw [delete_project, if_neg]
    intro hex
    rcases projectExists_iff.mp hex with ⟨r, hr, hid⟩
    exact h r hr hid

/-- Witness for C10: on the concrete store sclState (two cases, a suspect, a
suspect-case link) every delete with the absent id 99 returns the store
unchanged. -/
theorem C10_witness :
    delete_case sclState 99 = sclState ∧
    delete_suspect sclState 99 = sclState ∧
    delete_case_link sclState 99 = sclState ∧
    delete_suspect_case_link sclState 99 = sclState ∧
    delete_timeline_event sclState 99 = sclState ∧
    delete_suspect_crime_history_entry sclState 99 = sclState ∧
    delete_project sclState 99 = sclState :=
  ⟨C10_delete_missing_id_noop.1 sclState 99 (by decide),
   C10_delete_missing_id_noop.2.1 sclState 99 (by decide),
   C10_delete_missing_id_noop.2.2.1 sclState 99 (by decide),
   C10_delete_missing_id_noop.2.2.2.1 sclState 99 (by decide),
   C10_delete_missing_id_noop.2.2.2.2.1 sclState 99 (by decide),
   C10_delete_missing_id_noop.2.2.2.2.2.1 sclState 99 (by decide),
   C10_delete_missing_id_noop.2.2.2.2.2.2 sclState 99 (by decide)⟩

/-- Rows surviving the DELETE of a case's crime-type rows never match that
case again. -/
theorem cct_filter_ne_any_false (l : List CaseCrimeTypeRow) (c : Nat)
    (q : CaseCrimeTypeRow → Bool) :
    (l.filter (fun r => !(r.case_id == c))).any (fun r => r.case_id == c && q r) = false := by
  rw [List.any_eq_false]
  intro r hr
  rcases List.mem_filter.mp hr with ⟨-, hne⟩
  simp only [Bool.not_eq_true'] at hne
  simp [hne]

/-- Filtering the deleted case back out of the survivors gives nothing. -/
theorem cct_filter_ne_filter_eq_nil (l : List CaseCrimeTypeRow) (c : Nat) :
    (l.filter (fun r => !(r.case_id == c))).filter (fun r => r.case_id == c) = [] := by
  rw [List.filter_eq_nil_iff]
  intro r hr
  rcases List.mem_filter.mp hr with ⟨-, hne⟩
  simp only [Bool.not_eq_true'] at hne
  simp [hne]

/-- The insert loop of set_case_crime_types on a two-element list of
distinct fresh types appends the two rows with sort orders i and i+1. -/
theorem cctInsertLoop_pair (c i n : Nat) (acc : List CaseCrimeTypeRow) (X Y : String)
    (hX : acc.any (fun r => r.case_id == c && r.crime_type == X) = false)
    (hY : acc.any (fun r => r.case_id == c && r.crime_type == Y) = false)
    (hXY : X ≠ Y) :
    cctInsertLoop c i n acc [X, Y] =
      (acc ++ [{ id := n, case_id := c, crime_type := X, sort_order := i },
               { id := n + 1, case_id := c, crime_type := Y, sort_order := i + 1 }],
       n + 2) := by
  rw [cctInsertLoop, if_neg (by simp [hX])]
  rw [cctInsertLoop, if_neg ?hny]
  case hny =>
    simp [List.any_append, hY, beq_eq_false_iff_ne.mpr hXY]
  rw [cctInsertLoop]
  simp

/-- C4: on an existing case, setCaseCrimeTypes(c, [A, B]) with distinct A, B
succeeds; afterwards the types read back as [A, B] and the primary is A; a
subsequent setCaseCrimeTypes(c, [B, A]) succeeds and fully replaces the
association set, leaving exactly the two fresh rows for B then A with sort
orders 0 and 1, so the types read back [B, A] and the primary is B. -/
theorem C4_set_crime_types_replace_all (s : DBState) (c : Nat) (A B : String)
    (hAB : A ≠ B) (hc : caseExists s.cases c = true) :
    ∃ s1 s2,
      set_case_crime_types s c [A, B] = .ok s1 ∧
      get_case_crime_types s1 c = [A, B] ∧
      get_primary_crime_type s1 c = some A ∧
      set_case_crime_types s1 c [B, A] = .ok s2 ∧
      s2.case_crime_types.filter (fun r => r.case_id == c) =
        [{ id := s1.next_cct_id, case_id := c, crime_type := B, sort_order := 0 },
         { id := s1.next_cct_id + 1, case_id := c, crime_type := A, sort_order := 1 }] ∧
      get_case_crime_types s2 c = [B, A] ∧
      get_primary_crime_type s2 c = some B := by
  set base := s.case_crime_types.filter (fun r => !(r.case_id == c)) with hbase
  set n := s.next_cct_id with hn
  set rowA : CaseCrimeTypeRow := { id := n, case_id := c, crime_type := A, sort_order := 0 }
  set rowB : CaseCrimeTypeRow := { id := n + 1, case_id := c, crime_type := B, sort_order := 1 }
  have hloop1 : cctInsertLoop c 0 n base [A, B] = (base ++ [rowA, rowB], n + 2) := by
    rw [cctInsertLoop_pair c 0 n base A B
      (cct_filter_ne_any_false s.case_crime_types c _)
      (cct_filter_ne_any_false s.case_crime_types c _) hAB]
  set s1 : DBState := { s with case_crime_types := base ++ [rowA, rowB], next_cct_id := n + 2 }
  have hfilter1 : s1.case_crime_types.filter (fun r => r.case_id == c) = [rowA, rowB] := by
    show (base ++ [rowA, rowB]).filter (fun r => r.case_id == c) = [rowA, rowB]
    rw [List.filter_append, hbase, cct_filter_ne_filter_eq_nil]
    simp [rowA, rowB]
  have hstep1 : set_case_crime_types s c [A, B] = .ok s1 := by
    rw [set_case_crime_types, if_pos (by simp [hc])]
    simp only [hloop1]
  -- the survivors of the second DELETE are exactly the old survivors
  have hbase2 : s1.case_crime_types.filter (fun r => !(r.case_id == c)) = base := by
    show (base ++ [rowA, rowB]).filter (fun r => !(r.case_id == c)) = base
    rw [List.filter_append]
    have h1 : base.filter (fun r => !(r.case_id == c)) = base :=
      List.filter_eq_self.mpr (fun r hr => (List.mem_filter.mp hr).2)
    have h2 : [rowA, rowB].filter (fun r => !(r.case_id == c)) = [] := by
      simp [rowA, rowB]
    rw [h1, h2, List.append_nil]
  set rowB' : CaseCrimeTypeRow :=
    { id := n + 2, case_id := c, crime_type := B, sort_order := 0 }
  set rowA' : CaseCrimeTypeRow :=
    { id := n + 2 + 1, case_id := c, crime_type := A, sort_order := 1 }
  have hloop2 : cctInsertLoop c 0 (n + 2) base [B, A] = (base ++ [rowB', rowA'], n + 2 + 2) := by
    rw [cctInsertLoop_pair c 0 (n + 2) base B A
      (cct_filter_ne_any_false s.case_crime_types c _)
      (cct_filter_ne_any_false s.case_crime_types c _) hAB.symm]
  set s2 : DBState :=
    { s1 with case_crime_types := base ++ [rowB', rowA'], next_cct_id := n + 2 + 2 }
  have hc1 : caseExists s1.cases c = true := hc
  have hstep2 : set_case_crime_types s1 c [B, A] = .ok s2 := by
    rw [set_case_crime_types, if_pos (by simp [hc1]), hbase2]
    simp only [hloop2]
  have hfilter2 : s2.case_crime_types.filter (fun r => r.case_id == c) = [rowB', rowA'] := by
    show (base ++ [rowB', rowA']).filter (fun r => r.case_id == c) = [rowB', rowA']
    rw [List.filter_append, hbase, cct_filter_ne_filter_eq_nil]
    simp [rowB', rowA']
  refine ⟨s1, s2, hstep1, ?_, ?_, hstep2, hfilter2, ?_, ?_⟩
  · rw [get_case_crime_types, hfilter1]
    simp [List.insertionSort, List.orderedInsert, cctOrder, rowA, rowB]
  · rw [get_primary_crime_type, hfilter1]
    simp [List.insertionSort, List.orderedInsert, cctOrder, rowA, rowB]
  · rw [get_case_crime_types, hfilter2]
    simp [List.insertionSort, List.orderedInsert, cctOrder, rowB', rowA']
  · rw [get_primary_crime_type, hfilter2]
    simp [List.insertionSort, List.orderedInsert, cctOrder, rowB', rowA']

/-- Witness for C4 on the concrete two-case store: case 2 with Homicide then
Arson, re-set to Arson then Homicide. -/
theorem C4_witness :
    ∃ s1 s2,
      set_case_crime_types twoCaseState 2 ["Homicide", "Arson"] = .ok s1 ∧
      get_case_crime_types s1 2 = ["Homicide", "Arson"] ∧
      get_primary_crime_type s1 2 = some "Homicide" ∧
      set_case_crime_types s1 2 ["Arson", "Homicide"] = .ok s2 ∧
      s2.case_crime_types.filter (fun r => r.case_id == 2) =
        [{ id := s1.next_cct_id, case_id := 2, crime_type := "Arson", sort_order := 0 },
         { id := s1.next_cct_id + 1, case_id := 2, crime_type := "Homicide", sort_order := 1 }] ∧
      get_case_crime_types s2 2 = ["Arson", "Homicide"] ∧
      get_primary_crime_type s2 2 = some "Arson" :=
  C4_set_crime_types_replace_all twoCaseState 2 "Homicide" "Arson" (by decide) (by decide)

/-- Mapping a function that fixes every member of a list is the identity. -/
theorem map_eq_self_of {α : Type} {l : List α} {f : α → α} (h : ∀ a ∈ l, f a = a) :
    l.map f = l := by
  induction l with
  | nil => rfl
  | cons a as ih =>
    rw [List.map_cons, h a (List.mem_cons_self a as),
      ih (fun b hb => h b (List.mem_cons_of_mem a hb))]

/-- After the location backfill a row never matches its WHERE clause again:
either it did not match, or its crime_scene_lat was filled with the non-NULL
legacy latitude. -/
theorem migrateStep3Row_P3 (r : CaseRow) :
    ((migrateStep3Row r).crime_scene_lat.isNone &&
      !(migrateStep3Row r).latitude.isNone) = false := by
  rw [migrateStep3Row]
  split
  next h =>
    simp only [Bool.and_eq_true] at h
    have h2 := h.2
    simp only [Bool.not_eq_true'] at h2
    simp [h2]
  next h =>
    simpa using h

/-- The backfill row update is the identity on rows outside its WHERE clause. -/
theorem migrateStep3Row_id (r : CaseRow)
    (h : (r.crime_scene_lat.isNone && !r.latitude.isNone) = false) :
    migrateStep3Row r = r := by
  rw [migrateStep3Row, if_neg]
  intro hc
  rw [h] at hc
  cases hc

/-- The cases table after step 4: untouched when no legacy crime type was
found, otherwise every unmigrated row is stamped with the sentinel. -/
theorem migrateStep4_cases (t : DBState) :
    (migrateStep4 t).cases =
      if (t.cases.filter (fun r => !(r.crime_type == "__migrated__"))).isEmpty then t.cases
      else t.cases.map (fun r =>
        if !(r.crime_type == "__migrated__") then { r with crime_type := "__migrated__" }
        else r) := by
  rw [migrateStep4]
  split
  · rfl
  · rfl

/-- Step 4 leaves every case row carrying the migration sentinel. -/
theorem migrateStep4_P4 (t : DBState) :
    ∀ r ∈ (migrateStep4 t).cases, (r.crime_type == "__migrated__") = true := by
  intro r hr
  rw [migrateStep4_cases] at hr
  split at hr
  next hemp =>
    rw [List.isEmpty_iff, List.filter_eq_nil_iff] at hemp
    simpa using hemp r hr
  next =>
    rcases List.mem_map.mp hr with ⟨r0, -, rfl⟩
    by_cases h0 : (r0.crime_type == "__migrated__") = true
    · simp [h0]
    · simp [h0]

/-- Every row of the cases table after step 4 has the location fields of
some row of the table before step 4. -/
theorem migrateStep4_cases_locs (t : DBState) :
    ∀ r ∈ (migrateStep4 t).cases, ∃ r0 ∈ t.cases,
      r.crime_scene_lat = r0.crime_scene_lat ∧ r.latitude = r0.latitude := by
  intro r hr
  rw [migrateStep4_cases] at hr
  split at hr
  next => exact ⟨r, hr, rfl, rfl⟩
  next =>
    rcases List.mem_map.mp hr with ⟨r0, hr0, rfl⟩
    refine ⟨r0, hr0, ?_, ?_⟩ <;> (split <;> rfl)

/-- The status normalisation does not touch locations or the crime type. -/
theorem migrateStep5Row_fields (r : CaseRow) :
    (migrateStep5Row r).crime_scene_lat = r.crime_scene_lat ∧
    (migrateStep5Row r).latitude = r.latitude ∧
    (migrateStep5Row r).crime_type = r.crime_type := by
  rw [migrateStep5Row]
  split <;> split <;> exact ⟨rfl, rfl, rfl⟩

/-- After the status normalisation no row carries a retired status value. -/
theorem migrateStep5Row_P5 (r : CaseRow) :
    ((migrateStep5Row r).status == "Open") = false ∧
    ((migrateStep5Row r).status == "Linked") = false ∧
    ((migrateStep5Row r).status == "Closed") = false := by
  rw [migrateStep5Row]
  by_cases h1 : (r.status == "Open" || r.status == "Linked") = true
  · simp only [h1, if_true]
    have h2 : ((("Active" : String)) == "Closed") = false := by decide
    simp only [h2, Bool.false_eq_true, if_false]
    exact ⟨by decide, by decide, by decide⟩
  · simp only [h1, Bool.false_eq_true, if_false]
    by_cases h2 : (r.status == "Closed") = true
    · simp only [h2, if_true]
      exact ⟨by decide, by decide, by decide⟩
    · simp only [h2, Bool.false_eq_true, if_false]
      simp only [Bool.or_eq_true, not_or, Bool.not_eq_true] at h1
      exact ⟨h1.1, h1.2, by simp at h2; simp [h2]⟩

/-- The status normalisation is the identity on rows with current statuses. -/
theorem migrateStep5Row_id (r : CaseRow)
    (h1 : (r.status == "Open") = false) (h2 : (r.status == "Linked") = false)
    (h3 : (r.status == "Closed") = false) :
    migrateStep5Row r = r := by
  rw [migrateStep5Row]
  simp [h1, h2, h3]

/-- Every case row of a migrated store is outside the backfill WHERE clause. -/
theorem migrate_db_cases_P3 (s : DBState) :
    ∀ r ∈ (migrate_db s).cases,
      (r.crime_scene_lat.isNone && !r.latitude.isNone) = false := by
  intro r hr
  rcases List.mem_map.mp hr with ⟨r4, hr4, rfl⟩
  rcases migrateStep4_cases_locs (migrateStep3 s) r4 hr4 with ⟨r3, hr3, hlat, hleg⟩
  rcases List.mem_map.mp hr3 with ⟨r0, -, rfl⟩
  obtain ⟨f1, f2, -⟩ := migrateStep5Row_fields r4
  rw [f1, f2, hlat, hleg]
  exact migrateStep3Row_P3 r0

/-- Every case row of a migrated store carries the migration sentinel. -/
theorem migrate_db_cases_P4 (s : DBState) :
    ∀ r ∈ (migrate_db s).cases, (r.crime_type == "__migrated__") = true := by
  intro r hr
  rcases List.mem_map.mp hr with ⟨r4, hr4, rfl⟩
  obtain ⟨-, -, f3⟩ := migrateStep5Row_fields r4
  rw [f3]
  exact migrateStep4_P4 (migrateStep3 s) r4 hr4

/-- No case row of a migrated store carries a retired status value. -/
theorem migrate_db_cases_P5 (s : DBState) :
    ∀ r ∈ (migrate_db s).cases,
      ((r.status == "Open") = false ∧ (r.status == "Linked") = false ∧
        (r.status == "Closed") = false) := by
  intro r hr
  rcases List.mem_map.mp hr with ⟨r4, -, rfl⟩
  exact migrateStep5Row_P5 r4

/-- C3: migrate_db reaches a fixed point after one run — running it a second
time on any already-migrated store (in particular immediately after a first
run from an init_db schema) changes neither any table's rows nor any rowid
counter; each data step is individually inert the second time. -/
theorem C3_migrate_db_idempotent (s : DBState) :
    migrate_db (migrate_db s) = migrate_db s := by
  have h3 : migrateStep3 (migrate_db s) = migrate_db s := by
    rw [migrateStep3,
      map_eq_self_of (fun r hr => migrateStep3Row_id r (migrate_db_cases_P3 s r hr))]
  have h4 : migrateStep4 (migrate_db s) = migrate_db s := by
    have hrows :
        (migrate_db s).cases.filter (fun r => !(r.crime_type == "__migrated__")) = [] := by
      rw [List.filter_eq_nil_iff]
      intro r hr
      simp [migrate_db_cases_P4 s r hr]
    rw [migrateStep4, hrows]
    simp [step4InsertLoop]
  have h5 : migrateStep5 (migrate_db s) = migrate_db s := by
    rw [migrateStep5,
      map_eq_self_of (fun r hr => by
        obtain ⟨p1, p2, p3⟩ := migrate_db_cases_P5 s r hr
        exact migrateStep5Row_id r p1 p2 p3)]
  show migrateStep5 (migrateStep4 (migrateStep3 (migrate_db s))) = migrate_db s
  rw [h3, h4, h5]

/-- Membership of a case in a project (the EXISTS test on project_cases
with the join predicate of get_all_cases). -/
def projectMember (s : DBState) (pid cid : Nat) : Bool :=
  s.project_cases.any (fun pc => pc.case_id == cid && pc.project_id == pid)

/-- The UNIQUE(project_id, case_id) constraint of project_cases, as a
pairwise property of the stored rows. -/
def pcPairsUnique (s : DBState) : Prop :=
  s.project_cases.Pairwise (fun a b => ¬(a.project_id = b.project_id ∧ a.case_id = b.case_id))

/-- Under the UNIQUE pair constraint, the membership rows matching one
(project, case) pair are one row or none, so the joined copies of a case
collapse to an if. -/
theorem pc_filter_map_const (pcs : List ProjectCaseRow) (pid cid : Nat) (c : CaseRow)
    (h : pcs.Pairwise (fun a b => ¬(a.project_id = b.project_id ∧ a.case_id = b.case_id))) :
    (pcs.filter (fun pc => pc.case_id == cid && pc.project_id == pid)).map (fun _ => c) =
      if pcs.any (fun pc => pc.case_id == cid && pc.project_id == pid) then [c] else [] := by
  induction pcs with
  | nil => rfl
  | cons p ps ih =>
    rcases List.pairwise_cons.mp h with ⟨hp, hps⟩
    by_cases hm : (p.case_id == cid && p.project_id == pid) = true
    · have hnil : ps.filter (fun pc => pc.case_id == cid && pc.project_id == pid) = [] := by
        rw [List.filter_eq_nil_iff]
        intro q hq hqm
        simp only [Bool.and_eq_true, beq_iff_eq] at hm hqm
        exact hp q hq ⟨hm.2.trans hqm.2.symm, hm.1.trans hqm.1.symm⟩
      simp [List.filter_cons, List.any_cons, hm, hnil]
    · simp [List.filter_cons, List.any_cons, hm, ih hps]

/-- Under the UNIQUE pair constraint the inner join of get_all_cases
produces exactly the member cases, once each, in table-scan order. -/
theorem joinList_eq_filter (cl : List CaseRow) (s : DBState) (pid : Nat)
    (h : pcPairsUnique s) :
    cl.flatMap (fun c => (s.project_cases.filter
        (fun pc => pc.case_id == c.id && pc.project_id == pid)).map (fun _ => c)) =
      cl.filter (fun c => projectMember s pid c.id) := by
  induction cl with
  | nil => rfl
  | cons c cs ih =>
    simp only [projectMember] at ih ⊢
    rw [List.flatMap_cons, List.filter_cons,
      pc_filter_map_const s.project_cases pid c.id c h, ih]
    by_cases hm : s.project_cases.any
        (fun pc => pc.case_id == c.id && pc.project_id == pid) = true
    · rw [if_pos hm, if_pos hm, List.singleton_append]
    · rw [if_neg hm, if_neg hm, List.nil_append]

/-- C8: get_all_cases returns each case exactly once (it is a permutation of
the cases table and has no duplicates when ids are unique), sorted
descending by occurrence date; equal dates keep the deterministic
insertion (rowid) order of the table scan; with a project id it returns
exactly the cases in that project's membership table (inner join), once
each, with the same ordering guarantees. -/
theorem C8_list_cases_ordered (s : DBState) (pid : Nat) :
    (get_all_cases s none).Perm s.cases ∧
    (get_all_cases s none).Pairwise caseDateDesc ∧
    (s.cases.Pairwise (fun a b => a.id ≠ b.id) → (get_all_cases s none).Nodup) ∧
    (∀ a b, [a, b].Sublist s.cases → a.date_occurred = b.date_occurred →
      [a, b].Sublist (get_all_cases s none)) ∧
    (pcPairsUnique s →
      (get_all_cases s (some pid)).Perm
        (s.cases.filter (fun c => projectMember s pid c.id)) ∧
      (get_all_cases s (some pid)).Pairwise caseDateDesc ∧
      (s.cases.Pairwise (fun a b => a.id ≠ b.id) → (get_all_cases s (some pid)).Nodup) ∧
      (∀ c, c ∈ get_all_cases s (some pid) ↔
        c ∈ s.cases ∧ projectMember s pid c.id = true) ∧
      (∀ a b, [a, b].Sublist (s.cases.filter (fun c => projectMember s pid c.id)) →
        a.date_occurred = b.date_occurred →
        [a, b].Sublist (get_all_cases s (some pid)))) := by
  have hnodup : ∀ l : List CaseRow, l.Pairwise (fun a b => a.id ≠ b.id) → l.Nodup :=
    fun l hl => hl.imp (fun h heq => h (congrArg CaseRow.id heq))
  refine ⟨?_, ?_, ?_, ?_, ?_⟩
  · exact List.perm_insertionSort caseDateDesc s.cases
  · exact List.sorted_insertionSort caseDateDesc s.cases
  · intro hids
    exact ((List.perm_insertionSort caseDateDesc s.cases).symm).nodup (hnodup _ hids)
  · intro a b hsub heq
    refine List.pair_sublist_insertionSort ?_ hsub
    show strLe b.date_occurred a.date_occurred = true
    rw [heq]
    exact strLe_refl b.date_occurred
  · intro h
    have hbase : get_all_cases s (some pid) =
        List.insertionSort caseDateDesc
          (s.cases.filter (fun c => projectMember s pid c.id)) := by
      show List.insertionSort caseDateDesc _ = _
      rw [joinList_eq_filter s.cases s pid h]
    rw [hbase]
    set base := s.cases.filter (fun c => projectMember s pid c.id) with hb
    refine ⟨?_, ?_, ?_, ?_, ?_⟩
    · exact List.perm_insertionSort caseDateDesc base
    · exact List.sorted_insertionSort caseDateDesc base
    · intro hids
      exact ((List.perm_insertionSort caseDateDesc base).symm).nodup
        ((hnodup _ hids).filter _)
    · intro c
      rw [List.mem_insertionSort, hb, List.mem_filter]
    · intro a b hsub heq
      refine List.pair_sublist_insertionSort ?_ hsub
      show strLe b.date_occurred a.date_occurred = true
      rw [heq]
      exact strLe_refl b.date_occurred

/-- A concrete store for the C8 witness: three cases, two sharing an
occurrence date, and a project holding cases 1 and 3. -/
def c8State : DBState :=
  { init_db with
    cases := [mkCaseRow 1 "2000-05-05", mkCaseRow 2 "1999-01-01", mkCaseRow 3 "2000-05-05"]
    next_case_id := 4
    projects := [{ id := 1, name := "p", description := none, created_at := 0 }]
    next_project_id := 2
    project_cases := [{ id := 1, project_id := 1, case_id := 1, added_at := 0 },
                      { id := 2, project_id := 1, case_id := 3, added_at := 0 }]
    next_pc_id := 3 }

/-- Witness for C8 on the concrete store: the full listing is an ordered
duplicate-free permutation keeping the equal-date pair (1, 3) in insertion
order, and the project listing is exactly the member cases. -/
theorem C8_witness :
    (get_all_cases c8State none).Perm c8State.cases ∧
    (get_all_cases c8State none).Nodup ∧
    [mkCaseRow 1 "2000-05-05", mkCaseRow 3 "2000-05-05"].Sublist
      (get_all_cases c8State none) ∧
    (get_all_cases c8State (some 1)).Perm
      (c8State.cases.filter (fun c => projectMember c8State 1 c.id)) ∧
    (mkCaseRow 2 "1999-01-01" ∈ get_all_cases c8State (some 1) ↔
      mkCaseRow 2 "1999-01-01" ∈ c8State.cases ∧
        projectMember c8State 1 (mkCaseRow 2 "1999-01-01").id = true) := by
  have h := C8_list_cases_ordered c8State 1
  have hp := h.2.2.2.2 (by unfold pcPairsUnique; decide)
  exact ⟨h.1, h.2.2.1 (by decide),
    h.2.2.2.1 (mkCaseRow 1 "2000-05-05") (mkCaseRow 3 "2000-05-05") (by decide) (by decide),
    hp.1, hp.2.2.2.1 (mkCaseRow 2 "1999-01-01")⟩

/-- Referential integrity of the store: every association row references
existing parent rows (what PRAGMA foreign_keys = ON enforces for the nine
declared foreign keys). -/
def RefIntegrity (s : DBState) : Prop :=
  (∀ r ∈ s.case_crime_types, caseExists s.cases r.case_id = true) ∧
  (∀ r ∈ s.case_tags, caseExists s.cases r.case_id = true) ∧
  (∀ r ∈ s.suspect_crime_history, suspectExists s.suspects r.suspect_id = true) ∧
  (∀ r ∈ s.suspect_case_links,
    suspectExists s.suspects r.suspect_id = true ∧ caseExists s.cases r.case_id = true) ∧
  (∀ r ∈ s.case_links,
    caseExists s.cases r.case_id_1 = true ∧ caseExists s.cases r.case_id_2 = true) ∧
  (∀ r ∈ s.timeline_events, caseExists s.cases r.case_id = true) ∧
  (∀ r ∈ s.project_cases,
    projectExists s.projects r.project_id = true ∧ caseExists s.cases r.case_id = true)

theorem caseExists_append (cs : List CaseRow) (x : Nat) (r : CaseRow)
    (h : caseExists cs x = true) : caseExists (cs ++ [r]) x = true := by
  rcases caseExists_iff.mp h with ⟨r0, hr0, hid⟩
  exact caseExists_iff.mpr ⟨r0, List.mem_append_left _ hr0, hid⟩

theorem caseExists_filter_ne (cs : List CaseRow) (x c : Nat)
    (h : caseExists cs x = true) (hne : x ≠ c) :
    caseExists (cs.filter (fun r => !(r.id == c))) x = true := by
  rcases caseExists_iff.mp h with ⟨r0, hr0, hid⟩
  refine caseExists_iff.mpr ⟨r0, List.mem_filter.mpr ⟨hr0, ?_⟩, hid⟩
  simp [hid, hne]

theorem caseExists_map (cs : List CaseRow) (x : Nat) (f : CaseRow → CaseRow)
    (hf : ∀ r, (f r).id = r.id) (h : caseExists cs x = true) :
    caseExists (cs.map f) x = true := by
  rcases caseExists_iff.mp h with ⟨r0, hr0, hid⟩
  exact caseExists_iff.mpr ⟨f r0, List.mem_map_of_mem f hr0, (hf r0).trans hid⟩

theorem suspectExists_append (ss : List SuspectRow) (x : Nat) (r : SuspectRow)
    (h : suspectExists ss x = true) : suspectExists (ss ++ [r]) x = true := by
  rcases suspectExists_iff.mp h with ⟨r0, hr0, hid⟩
  exact suspectExists_iff.mpr ⟨r0, List.mem_append_left _ hr0, hid⟩

theorem suspectExists_filter_ne (ss : List SuspectRow) (x c : Nat)
    (h : suspectExists ss x = true) (hne : x ≠ c) :
    suspectExists (ss.filter (fun r => !(r.id == c))) x = true := by
  rcases suspectExists_iff.mp h with ⟨r0, hr0, hid⟩
  refine suspectExists_iff.mpr ⟨r0, List.mem_filter.mpr ⟨hr0, ?_⟩, hid⟩
  simp [hid, hne]

theorem suspectExists_map (ss : List SuspectRow) (x : Nat) (f : SuspectRow → SuspectRow)
    (hf : ∀ r, (f r).id = r.id) (h : suspectExists ss x = true) :
    suspectExists (ss.map f) x = true := by
  rcases suspectExists_iff.mp h with ⟨r0, hr0, hid⟩
  exact suspectExists_iff.mpr ⟨f r0, List.mem_map_of_mem f hr0, (hf r0).trans hid⟩

theorem projectExists_append (ps : List ProjectRow) (x : Nat) (r : ProjectRow)
    (h : projectExists ps x = true) : projectExists (ps ++ [r]) x = true := by
  rcases projectExists_iff.mp h with ⟨r0, hr0, hid⟩
  exact projectExists_iff.mpr ⟨r0, List.mem_append_left _ hr0, hid⟩

theorem projectExists_filter_ne (ps : List ProjectRow) (x c : Nat)
    (h : projectExists ps x = true) (hne : x ≠ c) :
    projectExists (ps.filter (fun r => !(r.id == c))) x = true := by
  rcases projectExists_iff.mp h with ⟨r0, hr0, hid⟩
  refine projectExists_iff.mpr ⟨r0, List.mem_filter.mpr ⟨hr0, ?_⟩, hid⟩
  simp [hid, hne]

theorem projectExists_map (ps : List ProjectRow) (x : Nat) (f : ProjectRow → ProjectRow)
    (hf : ∀ r, (f r).id = r.id) (h : projectExists ps x = true) :
    projectExists (ps.map f) x = true := by
  rcases projectExists_iff.mp h with ⟨r0, hr0, hid⟩
  exact projectExists_iff.mpr ⟨f r0, List.mem_map_of_mem f hr0, (hf r0).trans hid⟩

/-- Rows produced by the set_case_crime_types insert loop come from the
accumulator or carry the target case id (and then the input list was
non-empty). -/
theorem cctInsertLoop_mem (c : Nat) : ∀ (l : List String) (i n : Nat)
    (acc : List CaseCrimeTypeRow) (r : CaseCrimeTypeRow),
    r ∈ (cctInsertLoop c i n acc l).1 → r ∈ acc ∨ (r.case_id = c ∧ l ≠ []) := by
  intro l
  induction l with
  | nil => exact fun i n acc r hr => Or.inl hr
  | cons ct rest ih =>
    intro i n acc r hr
    rw [cctInsertLoop] at hr
    split at hr
    · rcases ih _ _ _ r hr with hacc | hc
      · exact Or.inl hacc
      · exact Or.inr ⟨hc.1, List.cons_ne_nil ct rest⟩
    · rcases ih _ _ _ r hr with hacc | hc
      · rcases List.mem_append.mp hacc with hl | hnew
        · exact Or.inl hl
        · rcases List.mem_singleton.mp hnew with rfl
          exact Or.inr ⟨rfl, List.cons_ne_nil ct rest⟩
      · exact Or.inr ⟨hc.1, List.cons_ne_nil ct rest⟩

/-- Rows produced by the set_case_tags insert loop come from the accumulator
or carry the target case id (and then the input list was non-empty). -/
theorem tagInsertLoop_mem (c : Nat) : ∀ (l : List String) (n : Nat)
    (acc : List CaseTagRow) (r : CaseTagRow),
    r ∈ (tagInsertLoop c n acc l).1 → r ∈ acc ∨ (r.case_id = c ∧ l ≠ []) := by
  intro l
  induction l with
  | nil => exact fun n acc r hr => Or.inl hr
  | cons tag rest ih =>
    intro n acc r hr
    rw [tagInsertLoop] at hr
    split at hr
    · rcases ih _ _ r hr with hacc | hc
      · exact Or.inl hacc
      · exact Or.inr ⟨hc.1, List.cons_ne_nil tag rest⟩
    · rcases ih _ _ r hr with hacc | hc
      · rcases List.mem_append.mp hacc with hl | hnew
        · exact Or.inl hl
        · rcases List.mem_singleton.mp hnew with rfl
          exact Or.inr ⟨rfl, List.cons_ne_nil tag rest⟩
      · exact Or.inr ⟨hc.1, List.cons_ne_nil tag rest⟩

/-- Rows produced by the migration step-4 insert loop come from the
accumulator or carry the case id of one of the scanned pairs. -/
theorem step4InsertLoop_mem : ∀ (prs : List (Nat × String)) (n : Nat)
    (acc : List CaseCrimeTypeRow) (r : CaseCrimeTypeRow),
    r ∈ (step4InsertLoop n acc prs).1 → r ∈ acc ∨ ∃ pr ∈ prs, r.case_id = pr.1 := by
  intro prs
  induction prs with
  | nil => exact fun n acc r hr => Or.inl hr
  | cons pr rest ih =>
    intro n acc r hr
    rw [step4InsertLoop] at hr
    split at hr
    · rcases ih _ _ r hr with hacc | ⟨q, hq, hid⟩
      · exact Or.inl hacc
      · exact Or.inr ⟨q, List.mem_cons_of_mem pr hq, hid⟩
    · rcases ih _ _ r hr with hacc | ⟨q, hq, hid⟩
      · rcases List.mem_append.mp hacc with hl | hnew
        · exact Or.inl hl
        · rcases List.mem_singleton.mp hnew with rfl
          exact Or.inr ⟨pr, List.mem_cons_self pr rest, rfl⟩
      · exact Or.inr ⟨q, List.mem_cons_of_mem pr hq, hid⟩

theorem refint_add_case (s : DBState) (t d st mo vp : String) (im : Bool)
    (vc : Option Int) (csa : String) (cla clo : Option ℚ) (bfa : String)
    (bla blo : Option ℚ) (h : RefIntegrity s) :
    RefIntegrity (add_case s t d st mo vp im vc csa cla clo bfa bla blo).2 := by
  obtain ⟨h1, h2, h3, h4, h5, h6, h7⟩ := h
  exact ⟨fun r hr => caseExists_append _ _ _ (h1 r hr),
    fun r hr => caseExists_append _ _ _ (h2 r hr),
    fun r hr => h3 r hr,
    fun r hr => ⟨(h4 r hr).1, caseExists_append _ _ _ (h4 r hr).2⟩,
    fun r hr => ⟨caseExists_append _ _ _ (h5 r hr).1, caseExists_append _ _ _ (h5 r hr).2⟩,
    fun r hr => caseExists_append _ _ _ (h6 r hr),
    fun r hr => ⟨(h7 r hr).1, caseExists_append _ _ _ (h7 r hr).2⟩⟩

/-- The UPDATE of update_case never changes a row's primary key. -/
theorem update_case_row_id (p : CasePatch) (cid : Nat) (r : CaseRow) :
    (if r.id == cid then applyCasePatch p r else r).id = r.id := by
  split <;> rfl

theorem refint_update_case (s : DBState) (cid : Nat) (p : CasePatch)
    (h : RefIntegrity s) : RefIntegrity (update_case s cid p) := by
  obtain ⟨h1, h2, h3, h4, h5, h6, h7⟩ := h
  exact ⟨fun r hr => caseExists_map _ _ _ (update_case_row_id p cid) (h1 r hr),
    fun r hr => caseExists_map _ _ _ (update_case_row_id p cid) (h2 r hr),
    fun r hr => h3 r hr,
    fun r hr => ⟨(h4 r hr).1, caseExists_map _ _ _ (update_case_row_id p cid) (h4 r hr).2⟩,
    fun r hr => ⟨caseExists_map _ _ _ (update_case_row_id p cid) (h5 r hr).1,
      caseExists_map _ _ _ (update_case_row_id p cid) (h5 r hr).2⟩,
    fun r hr => caseExists_map _ _ _ (update_case_row_id p cid) (h6 r hr),
    fun r hr => ⟨(h7 r hr).1, caseExists_map _ _ _ (update_case_row_id p cid) (h7 r hr).2⟩⟩

theorem refint_delete_case (s : DBState) (c : Nat) (h : RefIntegrity s) :
    RefIntegrity (delete_case s c) := by
  obtain ⟨h1, h2, h3, h4, h5, h6, h7⟩ := h
  rw [delete_case]
  split
  · refine ⟨?_, ?_, ?_, ?_, ?_, ?_, ?_⟩ <;> intro r hr
    · rcases List.mem_filter.mp hr with ⟨hr0, hne⟩
      simp only [Bool.not_eq_true', beq_eq_false_iff_ne] at hne
      exact caseExists_filter_ne _ _ _ (h1 r hr0) hne
    · rcases List.mem_filter.mp hr with ⟨hr0, hne⟩
      simp only [Bool.not_eq_true', beq_eq_false_iff_ne] at hne
      exact caseExists_filter_ne _ _ _ (h2 r hr0) hne
    · exact h3 r hr
    · rcases List.mem_filter.mp hr with ⟨hr0, hne⟩
      simp only [Bool.not_eq_true', beq_eq_false_iff_ne] at hne
      exact ⟨(h4 r hr0).1, caseExists_filter_ne _ _ _ (h4 r hr0).2 hne⟩
    · rcases List.mem_filter.mp hr with ⟨hr0, hne⟩
      simp only [Bool.and_eq_true, Bool.not_eq_true', beq_eq_false_iff_ne] at hne
      exact ⟨caseExists_filter_ne _ _ _ (h5 r hr0).1 hne.1,
        caseExists_filter_ne _ _ _ (h5 r hr0).2 hne.2⟩
    · rcases List.mem_filter.mp hr with ⟨hr0, hne⟩
      simp only [Bool.not_eq_true', beq_eq_false_iff_ne] at hne
      exact caseExists_filter_ne _ _ _ (h6 r hr0) hne
    · rcases List.mem_filter.mp hr with ⟨hr0, hne⟩
      simp only [Bool.not_eq_true', beq_eq_false_iff_ne] at hne
      exact ⟨(h7 r hr0).1, caseExists_filter_ne _ _ _ (h7 r hr0).2 hne⟩
  · exact ⟨h1, h2, h3, h4, h5, h6, h7⟩

theorem refint_set_case_crime_types (s : DBState) (c : Nat) (cts : List String)
    (s' : DBState) (hok : set_case_crime_types s c cts = .ok s')
    (h : RefIntegrity s) : RefIntegrity s' := by
  rw [set_case_crime_types] at hok
  split at hok
  case isTrue hguard =>
    rw [Except.ok.injEq] at hok
    subst hok
    obtain ⟨h1, h2, h3, h4, h5, h6, h7⟩ := h
    refine ⟨?_, h2, h3, h4, h5, h6, h7⟩
    intro r hr
    rcases cctInsertLoop_mem c cts 0 s.next_cct_id _ r hr with hacc | ⟨hc, hne⟩
    · exact h1 r (List.mem_filter.mp hacc).1
    · rw [hc]
      rcases Bool.or_eq_true_iff.mp hguard with hempty | hcase
      · exact absurd (List.isEmpty_iff.mp hempty) hne
      · exact hcase
  case isFalse => exact absurd hok (by simp)

theorem refint_set_case_tags (s : DBState) (c : Nat) (tags : List String)
    (s' : DBState) (hok : set_case_tags s c tags = .ok s')
    (h : RefIntegrity s) : RefIntegrity s' := by
  rw [set_case_tags] at hok
  split at hok
  case isTrue hguard =>
    rw [Except.ok.injEq] at hok
    subst hok
    obtain ⟨h1, h2, h3, h4, h5, h6, h7⟩ := h
    refine ⟨h1, ?_, h3, h4, h5, h6, h7⟩
    intro r hr
    rcases tagInsertLoop_mem c tags s.next_tag_id _ r hr with hacc | ⟨hc, hne⟩
    · exact h2 r (List.mem_filter.mp hacc).1
    · rw [hc]
      rcases Bool.or_eq_true_iff.mp hguard with hempty | hcase
      · exact absurd (List.isEmpty_iff.mp hempty) hne
      · exact hcase
  case isFalse => exact absurd hok (by simp)

theorem refint_add_suspect (s : DBState) (n : String) (d ka : Option String)
    (h : RefIntegrity s) : RefIntegrity (add_suspect s n d ka).2 := by
  obtain ⟨h1, h2, h3, h4, h5, h6, h7⟩ := h
  exact ⟨h1, h2, fun r hr => suspectExists_append _ _ _ (h3 r hr),
    fun r hr => ⟨suspectExists_append _ _ _ (h4 r hr).1, (h4 r hr).2⟩, h5, h6, h7⟩

/-- The UPDATE of update_suspect never changes a row's primary key. -/
theorem update_suspect_row_id (p : SuspectPatch) (sid : Nat) (r : SuspectRow) :
    (if r.id == sid then
      { r with name := p.name.getD r.name
               description := p.description.getD r.description
               known_aliases := p.known_aliases.getD r.known_aliases }
     else r).id = r.id := by
  split <;> rfl

theorem refint_update_suspect (s : DBState) (sid : Nat) (p : SuspectPatch)
    (h : RefIntegrity s) : RefIntegrity (update_suspect s sid p) := by
  obtain ⟨h1, h2, h3, h4, h5, h6, h7⟩ := h
  exact ⟨h1, h2,
    fun r hr => suspectExists_map _ _ _ (update_suspect_row_id p sid) (h3 r hr),
    fun r hr => ⟨suspectExists_map _ _ _ (update_suspect_row_id p sid) (h4 r hr).1,
      (h4 r hr).2⟩, h5, h6, h7⟩

theorem refint_delete_suspect (s : DBState) (c : Nat) (h : RefIntegrity s) :
    RefIntegrity (delete_suspect s c) := by
  obtain ⟨h1, h2, h3, h4, h5, h6, h7⟩ := h
  rw [delete_suspect]
  split
  · refine ⟨h1, h2, ?_, ?_, h5, h6, h7⟩ <;> intro r hr
    · rcases List.mem_filter.mp hr with ⟨hr0, hne⟩
      simp only [Bool.not_eq_true', beq_eq_false_iff_ne] at hne
      exact suspectExists_filter_ne _ _ _ (h3 r hr0) hne
    · rcases List.mem_filter.mp hr with ⟨hr0, hne⟩
      simp only [Bool.not_eq_true', beq_eq_false_iff_ne] at hne
      exact ⟨suspectExists_filter_ne _ _ _ (h4 r hr0).1 hne, (h4 r hr0).2⟩
  · exact ⟨h1, h2, h3, h4, h5, h6, h7⟩

theorem refint_add_suspect_crime_history (s : DBState) (sid : Nat) (ct : String)
    (dt : Option String) (cst notes : String) (i : Nat) (s' : DBState)
    (hok : add_suspect_crime_history s sid ct dt cst notes = .ok (i, s'))
    (h : RefIntegrity s) : RefIntegrity s' := by
  rw [add_suspect_crime_history] at hok
  split at hok
  case isTrue hguard =>
    rw [Except.ok.injEq, Prod.mk.injEq] at hok
    obtain ⟨-, rfl⟩ := hok
    obtain ⟨h1, h2, h3, h4, h5, h6, h7⟩ := h
    refine ⟨h1, h2, ?_, h4, h5, h6, h7⟩
    intro r hr
    rcases List.mem_append.mp hr with hold | hnew
    · exact h3 r hold
    · rcases List.mem_singleton.mp hnew with rfl
      exact hguard
  case isFalse => exact absurd hok (by simp)

theorem refint_delete_suspect_crime_history_entry (s : DBState) (x : Nat)
    (h : RefIntegrity s) : RefIntegrity (delete_suspect_crime_history_entry s x) := by
  obtain ⟨h1, h2, h3, h4, h5, h6, h7⟩ := h
  exact ⟨h1, h2, fun r hr => h3 r (List.mem_filter.mp hr).1, h4, h5, h6, h7⟩

theorem refint_link_suspect_to_case (s : DBState) (sid cid : Nat) (ct notes : String)
    (i : Nat) (s' : DBState) (hok : link_suspect_to_case s sid cid ct notes = .ok (i, s'))
    (h : RefIntegrity s) : RefIntegrity s' := by
  rw [link_suspect_to_case] at hok
  split at hok
  case isTrue => exact absurd hok (by simp)
  case isFalse hguard =>
    split at hok
    case isTrue => exact absurd hok (by simp)
    case isFalse =>
      rw [Except.ok.injEq, Prod.mk.injEq] at hok
      obtain ⟨-, rfl⟩ := hok
      simp only [Bool.or_eq_true, Bool.not_eq_true', not_or, Bool.not_eq_false] at hguard
      obtain ⟨h1, h2, h3, h4, h5, h6, h7⟩ := h
      refine ⟨h1, h2, h3, ?_, h5, h6, h7⟩
      intro r hr
      rcases List.mem_append.mp hr with hold | hnew
      · exact h4 r hold
      · rcases List.mem_singleton.mp hnew with rfl
        exact ⟨hguard.1, hguard.2⟩

theorem refint_delete_suspect_case_link (s : DBState) (x : Nat)
    (h : RefIntegrity s) : RefIntegrity (delete_suspect_case_link s x) := by
  obtain ⟨h1, h2, h3, h4, h5, h6, h7⟩ := h
  exact ⟨h1, h2, h3, fun r hr => h4 r (List.mem_filter.mp hr).1, h5, h6, h7⟩

theorem refint_link_cases (s : DBState) (a b : Nat) (note : String)
    (i : Nat) (s' : DBState) (hok : link_cases s a b note = .ok (i, s'))
    (h : RefIntegrity s) : RefIntegrity s' := by
  rw [link_cases] at hok
  split at hok
  case isTrue => exact absurd hok (by simp)
  case isFalse =>
    split at hok
    case isTrue => exact absurd hok (by simp)
    case isFalse hguard =>
      rw [Except.ok.injEq, Prod.mk.injEq] at hok
      obtain ⟨-, rfl⟩ := hok
      simp only [Bool.or_eq_true, Bool.not_eq_true', not_or, Bool.not_eq_false] at hguard
      obtain ⟨h1, h2, h3, h4, h5, h6, h7⟩ := h
      refine ⟨h1, h2, h3, h4, ?_, h6, h7⟩
      intro r hr
      rcases List.mem_append.mp hr with hold | hnew
      · exact h5 r hold
      · rcases List.mem_singleton.mp hnew with rfl
        exact ⟨hguard.1, hguard.2⟩

theorem refint_delete_case_link (s : DBState) (x : Nat)
    (h : RefIntegrity s) : RefIntegrity (delete_case_link s x) := by
  obtain ⟨h1, h2, h3, h4, h5, h6, h7⟩ := h
  exact ⟨h1, h2, h3, h4, fun r hr => h5 r (List.mem_filter.mp hr).1, h6, h7⟩

theorem refint_add_timeline_event (s : DBState) (cid : Nat) (ets etitle desc : String)
    (i : Nat) (s' : DBState) (hok : add_timeline_event s cid ets etitle desc = .ok (i, s'))
    (h : RefIntegrity s) : RefIntegrity s' := by
  rw [add_timeline_event] at hok
  split at hok
  case isTrue hguard =>
    rw [Except.ok.injEq, Prod.mk.injEq] at hok
    obtain ⟨-, rfl⟩ := hok
    obtain ⟨h1, h2, h3, h4, h5, h6, h7⟩ := h
    refine ⟨h1, h2, h3, h4, h5, ?_, h7⟩
    intro r hr
    rcases List.mem_append.mp hr with hold | hnew
    · exact h6 r hold
    · rcases List.mem_singleton.mp hnew with rfl
      exact hguard
  case isFalse => exact absurd hok (by simp)

theorem refint_delete_timeline_event (s : DBState) (x : Nat)
    (h : RefIntegrity s) : RefIntegrity (delete_timeline_event s x) := by
  obtain ⟨h1, h2, h3, h4, h5, h6, h7⟩ := h
  exact ⟨h1, h2, h3, h4, h5, fun r hr => h6 r (List.mem_filter.mp hr).1, h7⟩

theorem refint_add_project (s : DBState) (n d : String) (i : Nat) (s' : DBState)
    (hok : add_project s n d = .ok (i, s')) (h : RefIntegrity s) : RefIntegrity s' := by
  rw [add_project] at hok
  split at hok
  case isTrue => exact absurd hok (by simp)
  case isFalse =>
    rw [Except.ok.injEq, Prod.mk.injEq] at hok
    obtain ⟨-, rfl⟩ := hok
    obtain ⟨h1, h2, h3, h4, h5, h6, h7⟩ := h
    exact ⟨h1, h2, h3, h4, h5, h6,
      fun r hr => ⟨projectExists_append _ _ _ (h7 r hr).1, (h7 r hr).2⟩⟩

/-- The UPDATE of update_project never changes a row's primary key. -/
theorem update_project_row_id (p : ProjectPatch) (pid : Nat) (r : ProjectRow) :
    (if r.id == pid then
      { r with name := p.name.getD r.name
               description := p.description.getD r.description }
     else r).id = r.id := by
  split <;> rfl

theorem refint_update_project (s : DBState) (pid : Nat) (p : ProjectPatch)
    (h : RefIntegrity s) : RefIntegrity (update_project s pid p) := by
  obtain ⟨h1, h2, h3, h4, h5, h6, h7⟩ := h
  exact ⟨h1, h2, h3, h4, h5, h6,
    fun r hr => ⟨projectExists_map _ _ _ (update_project_row_id p pid) (h7 r hr).1,
      (h7 r hr).2⟩⟩

theorem refint_delete_project (s : DBState) (x : Nat)
    (h : RefIntegrity s) : RefIntegrity (delete_project s x) := by
  obtain ⟨h1, h2, h3, h4, h5, h6, h7⟩ := h
  rw [delete_project]
  split
  · refine ⟨h1, h2, h3, h4, h5, h6, ?_⟩
    intro r hr
    rcases List.mem_filter.mp hr with ⟨hr0, hne⟩
    simp only [Bool.not_eq_true', beq_eq_false_iff_ne] at hne
    exact ⟨projectExists_filter_ne _ _ _ (h7 r hr0).1 hne, (h7 r hr0).2⟩
  · exact ⟨h1, h2, h3, h4, h5, h6, h7⟩

theorem refint_assign_case_to_project (s : DBState) (pid cid : Nat) (s' : DBState)
    (hok : assign_case_to_project s pid cid = .ok s') (h : RefIntegrity s) :
    RefIntegrity s' := by
  rw [assign_case_to_project] at hok
  split at hok
  case isTrue =>
    rw [Except.ok.injEq] at hok
    subst hok
    exact h
  case isFalse =>
    split at hok
    case isTrue => exact absurd hok (by simp)
    case isFalse hguard =>
      rw [Except.ok.injEq] at hok
      subst hok
      simp only [Bool.or_eq_true, Bool.not_eq_true', not_or, Bool.not_eq_false] at hguard
      obtain ⟨h1, h2, h3, h4, h5, h6, h7⟩ := h
      refine ⟨h1, h2, h3, h4, h5, h6, ?_⟩
      intro r hr
      rcases List.mem_append.mp hr with hold | hnew
      · exact h7 r hold
      · rcases List.mem_singleton.mp hnew with rfl
        exact ⟨hguard.1, hguard.2⟩

theorem refint_unassign_case_from_project (s : DBState) (pid cid : Nat)
    (h : RefIntegrity s) : RefIntegrity (unassign_case_from_project s pid cid) := by
  obtain ⟨h1, h2, h3, h4, h5, h6, h7⟩ := h
  exact ⟨h1, h2, h3, h4, h5, h6, fun r hr => h7 r (List.mem_filter.mp hr).1⟩

/-- The location backfill never changes a row's primary key. -/
theorem migrateStep3Row_id_id (r : CaseRow) : (migrateStep3Row r).id = r.id := by
  rw [migrateStep3Row]
  split <;> rfl

theorem refint_migrateStep3 (s : DBState) (h : RefIntegrity s) :
    RefIntegrity (migrateStep3 s) := by
  obtain ⟨h1, h2, h3, h4, h5, h6, h7⟩ := h
  exact ⟨fun r hr => caseExists_map _ _ _ migrateStep3Row_id_id (h1 r hr),
    fun r hr => caseExists_map _ _ _ migrateStep3Row_id_id (h2 r hr),
    h3,
    fun r hr => ⟨(h4 r hr).1, caseExists_map _ _ _ migrateStep3Row_id_id (h4 r hr).2⟩,
    fun r hr => ⟨caseExists_map _ _ _ migrateStep3Row_id_id (h5 r hr).1,
      caseExists_map _ _ _ migrateStep3Row_id_id (h5 r hr).2⟩,
    fun r hr => caseExists_map _ _ _ migrateStep3Row_id_id (h6 r hr),
    fun r hr => ⟨(h7 r hr).1, caseExists_map _ _ _ migrateStep3Row_id_id (h7 r hr).2⟩⟩

/-- The sentinel stamp of step 4 never changes a row's primary key. -/
theorem step4RowStamp_id (r : CaseRow) :
    (if !(r.crime_type == "__migrated__") then { r with crime_type := "__migrated__" }
     else r).id = r.id := by
  split <;> rfl

theorem refint_migrateStep4 (t : DBState) (h : RefIntegrity t) :
    RefIntegrity (migrateStep4 t) := by
  obtain ⟨h1, h2, h3, h4, h5, h6, h7⟩ := h
  have hcct : ∀ r ∈ (step4InsertLoop t.next_cct_id t.case_crime_types
      ((t.cases.filter (fun r => !(r.crime_type == "__migrated__"))).map
        (fun r => (r.id, r.crime_type)))).1,
      caseExists t.cases r.case_id = true := by
    intro r hr
    rcases step4InsertLoop_mem _ _ _ r hr with hacc | ⟨pr, hpr, hid⟩
    · exact h1 r hacc
    · rcases List.mem_map.mp hpr with ⟨r0, hr0, rfl⟩
      rw [hid]
      exact caseExists_iff.mpr ⟨r0, (List.mem_filter.mp hr0).1, rfl⟩
  simp only [migrateStep4]
  split
  · exact ⟨hcct, h2, h3, h4, h5, h6, h7⟩
  · exact ⟨fun r hr => caseExists_map _ _ _ step4RowStamp_id (hcct r hr),
      fun r hr => caseExists_map _ _ _ step4RowStamp_id (h2 r hr),
      h3,
      fun r hr => ⟨(h4 r hr).1, caseExists_map _ _ _ step4RowStamp_id (h4 r hr).2⟩,
      fun r hr => ⟨caseExists_map _ _ _ step4RowStamp_id (h5 r hr).1,
        caseExists_map _ _ _ step4RowStamp_id (h5 r hr).2⟩,
      fun r hr => caseExists_map _ _ _ step4RowStamp_id (h6 r hr),
      fun r hr => ⟨(h7 r hr).1, caseExists_map _ _ _ step4RowStamp_id (h7 r hr).2⟩⟩

/-- The status normalisation never changes a row's primary key. -/
theorem migrateStep5Row_id_id (r : CaseRow) : (migrateStep5Row r).id = r.id := by
  rw [migrateStep5Row]
  split <;> split <;> rfl

theorem refint_migrateStep5 (s : DBState) (h : RefIntegrity s) :
    RefIntegrity (migrateStep5 s) := by
  obtain ⟨h1, h2, h3, h4, h5, h6, h7⟩ := h
  exact ⟨fun r hr => caseExists_map _ _ _ migrateStep5Row_id_id (h1 r hr),
    fun r hr => caseExists_map _ _ _ migrateStep5Row_id_id (h2 r hr),
    h3,
    fun r hr => ⟨(h4 r hr).1, caseExists_map _ _ _ migrateStep5Row_id_id (h4 r hr).2⟩,
    fun r hr => ⟨caseExists_map _ _ _ migrateStep5Row_id_id (h5 r hr).1,
      caseExists_map _ _ _ migrateStep5Row_id_id (h5 r hr).2⟩,
    fun r hr => caseExists_map _ _ _ migrateStep5Row_id_id (h6 r hr),
    fun r hr => ⟨(h7 r hr).1, caseExists_map _ _ _ migrateStep5Row_id_id (h7 r hr).2⟩⟩

theorem refint_migrate_db (s : DBState) (h : RefIntegrity s) :
    RefIntegrity (migrate_db s) :=
  refint_migrateStep5 _ (refint_migrateStep4 _ (refint_migrateStep3 _ h))

/-- C2: deleting an existing case id c removes the case row and every
dependent row referencing c — crime-type associations, tags, suspect-case
links, case-case links in either position, timeline events and project
memberships — so that afterwards no table references c; and the invariant
that no association row references a missing parent is preserved by every
store operation (each add/link checks its foreign keys, each replace-all
only inserts for the checked case, each update keeps primary keys, each
delete cascades, and the migration only references scanned case rows). -/
theorem C2_delete_case_cascades_and_integrity :
    (∀ (s : DBState) (c : Nat), caseExists s.cases c = true →
      (∀ r ∈ (delete_case s c).cases, r.id ≠ c) ∧
      (∀ r ∈ (delete_case s c).case_crime_types, r.case_id ≠ c) ∧
      (∀ r ∈ (delete_case s c).case_tags, r.case_id ≠ c) ∧
      (∀ r ∈ (delete_case s c).suspect_case_links, r.case_id ≠ c) ∧
      (∀ r ∈ (delete_case s c).case_links, r.case_id_1 ≠ c ∧ r.case_id_2 ≠ c) ∧
      (∀ r ∈ (delete_case s c).timeline_events, r.case_id ≠ c) ∧
      (∀ r ∈ (delete_case s c).project_cases, r.case_id ≠ c)) ∧
    (∀ (s : DBState) (t d st mo vp : String) (im : Bool) (vc : Option Int)
       (csa : String) (cla clo : Option ℚ) (bfa : String) (bla blo : Option ℚ),
      RefIntegrity s →
      RefIntegrity (add_case s t d st mo vp im vc csa cla clo bfa bla blo).2) ∧
    (∀ (s : DBState) (cid : Nat) (p : CasePatch),
      RefIntegrity s → RefIntegrity (update_case s cid p)) ∧
    (∀ (s : DBState) (c : Nat), RefIntegrity s → RefIntegrity (delete_case s c)) ∧
    (∀ (s : DBState) (c : Nat) (cts : List String) (s' : DBState),
      set_case_crime_types s c cts = .ok s' → RefIntegrity s → RefIntegrity s') ∧
    (∀ (s : DBState) (c : Nat) (tags : List String) (s' : DBState),
      set_case_tags s c tags = .ok s' → RefIntegrity s → RefIntegrity s') ∧
    (∀ (s : DBState) (n : String) (d ka : Option String),
      RefIntegrity s → RefIntegrity (add_suspect s n d ka).2) ∧
    (∀ (s : DBState) (sid : Nat) (p : SuspectPatch),
      RefIntegrity s → RefIntegrity (update_suspect s sid p)) ∧
    (∀ (s : DBState) (x : Nat), RefIntegrity s → RefIntegrity (delete_suspect s x)) ∧
    (∀ (s : DBState) (sid : Nat) (ct : String) (dt : Option String) (cst notes : String)
       (i : Nat) (s' : DBState),
      add_suspect_crime_history s sid ct dt cst notes = .ok (i, s') →
      RefIntegrity s → RefIntegrity s') ∧
    (∀ (s : DBState) (x : Nat),
      RefIntegrity s → RefIntegrity (delete_suspect_crime_history_entry s x)) ∧
    (∀ (s : DBState) (sid cid : Nat) (ct notes : String) (i : Nat) (s' : DBState),
      link_suspect_to_case s sid cid ct notes = .ok (i, s') →
      RefIntegrity s → RefIntegrity s') ∧
    (∀ (s : DBState) (x : Nat),
      RefIntegrity s → RefIntegrity (delete_suspect_case_link s x)) ∧
    (∀ (s : DBState) (a b : Nat) (note : String) (i : Nat) (s' : DBState),
      link_cases s a b note = .ok (i, s') → RefIntegrity s → RefIntegrity s') ∧
    (∀ (s : DBState) (x : Nat), RefIntegrity s → RefIntegrity (delete_case_link s x)) ∧
    (∀ (s : DBState) (cid : Nat) (ets etitle desc : String) (i : Nat) (s' : DBState),
      add_timeline_event s cid ets etitle desc = .ok (i, s') →
      RefIntegrity s → RefIntegrity s') ∧
    (∀ (s : DBState) (x : Nat),
      RefIntegrity s → RefIntegrity (delete_timeline_event s x)) ∧
    (∀ (s : DBState) (n d : String) (i : Nat) (s' : DBState),
      add_project s n d = .ok (i, s') → RefIntegrity s → RefIntegrity s') ∧
    (∀ (s : DBState) (pid : Nat) (p : ProjectPatch),
      RefIntegrity s → RefIntegrity (update_project s pid p)) ∧
    (∀ (s : DBState) (x : Nat), RefIntegrity s → RefIntegrity (delete_project s x)) ∧
    (∀ (s : DBState) (pid cid : Nat) (s' : DBState),
      assign_case_to_project s pid cid = .ok s' → RefIntegrity s → RefIntegrity s') ∧
    (∀ (s : DBState) (pid cid : Nat),
      RefIntegrity s → RefIntegrity (unassign_case_from_project s pid cid)) ∧
    (∀ (s : DBState), RefIntegrity s → RefIntegrity (migrate_db s)) := by
  refine ⟨?_, fun s t d st mo vp im vc csa cla clo bfa bla blo h =>
      refint_add_case s t d st mo vp im vc csa cla clo bfa bla blo h,
    fun s cid p h => refint_update_case s cid p h,
    fun s c h => refint_delete_case s c h,
    fun s c cts s' hok h => refint_set_case_crime_types s c cts s' hok h,
    fun s c tags s' hok h => refint_set_case_tags s c tags s' hok h,
    fun s n d ka h => refint_add_suspect s n d ka h,
    fun s sid p h => refint_update_suspect s sid p h,
    fun s x h => refint_delete_suspect s x h,
    fun s sid ct dt cst notes i s' hok h =>
      refint_add_suspect_crime_history s sid ct dt cst notes i s' hok h,
    fun s x h => refint_delete_suspect_crime_history_entry s x h,
    fun s sid cid ct notes i s' hok h =>
      refint_link_suspect_to_case s sid cid ct notes i s' hok h,
    fun s x h => refint_delete_suspect_case_link s x h,
    fun s a b note i s' hok h => refint_link_cases s a b note i s' hok h,
    fun s x h => refint_delete_case_link s x h,
    fun s cid ets etitle desc i s' hok h =>
      refint_add_timeline_event s cid ets etitle desc i s' hok h,
    fun s x h => refint_delete_timeline_event s x h,
    fun s n d i s' hok h => refint_add_project s n d i s' hok h,
    fun s pid p h => refint_update_project s pid p h,
    fun s x h => refint_delete_project s x h,
    fun s pid cid s' hok h => refint_assign_case_to_project s pid cid s' hok h,
    fun s pid cid h => refint_unassign_case_from_project s pid cid h,
    fun s h => refint_migrate_db s h⟩
  intro s c hc
  rw [delete_case, if_pos hc]
  refine ⟨?_, ?_, ?_, ?_, ?_, ?_, ?_⟩ <;> intro r hr <;>
    rcases List.mem_filter.mp hr with ⟨-, hne⟩
  · simpa using hne
  · simpa using hne
  · simpa using hne
  · simpa using hne
  · simp only [Bool.and_eq_true, Bool.not_eq_true', beq_eq_false_iff_ne] at hne
    exact hne
  · simpa using hne
  · simpa using hne

/-- Witness for C2 on the concrete store sclState (which satisfies the
foreign-key invariant): deleting the existing case 2 leaves no reference to
it in any table, and the deletion preserves the invariant. -/
theorem C2_witness :
    ((∀ r ∈ (delete_case sclState 2).cases, r.id ≠ 2) ∧
     (∀ r ∈ (delete_case sclState 2).case_crime_types, r.case_id ≠ 2) ∧
     (∀ r ∈ (delete_case sclState 2).case_tags, r.case_id ≠ 2) ∧
     (∀ r ∈ (delete_case sclState 2).suspect_case_links, r.case_id ≠ 2) ∧
     (∀ r ∈ (delete_case sclState 2).case_links,
        r.case_id_1 ≠ 2 ∧ r.case_id_2 ≠ 2) ∧
     (∀ r ∈ (delete_case sclState 2).timeline_events, r.case_id ≠ 2) ∧
     (∀ r ∈ (delete_case sclState 2).project_cases, r.case_id ≠ 2)) ∧
    RefIntegrity (delete_case sclState 2) :=
  ⟨C2_delete_case_cascades_and_integrity.1 sclState 2 (by decide),
   C2_delete_case_cascades_and_integrity.2.2.2.1 sclState 2
     (by unfold RefIntegrity; decide)⟩

end CCMS
